import Mathlib

/-
Verification of the campaign-dealer AI-generation core.

This file gives a shallow embedding, in Lean 4, of the parts of the
repository that the checked properties are about:

* the character randomizer (`server/services/rpg/characterRandomizer.ts`)
  together with the static game-data tables it reads
  (`server/data/houseDoesntWin/characterTemplates.ts`);
* the AI-output normalizer (`server/utils/parseAIJson.ts`, the
  Result-returning variant) together with a strict JSON parser modelling
  JavaScript's `JSON.parse`; the third-party `jsonrepair` library is kept
  abstract as a `String → Option String` parameter (`none` models a thrown
  `JSONRepairError`), constrained only where a property needs it;
* the error/result plumbing (`server/utils/errors.ts`);
* the provider registry and configuration validation
  (`server/services/ai/index.ts`);
* the result-style characters endpoint
  (`server/api/campaign/characters.post.ts` variant) and the
  response-validation helper `parseAndValidateAIResponse`.

JavaScript's `Math.random()` is modelled by streams of rationals in `[0,1)`,
each given as a numerator/denominator pair `(a, b)` of naturals with
`a < b`; the index drawn from an n-element array is `a * n / b` (natural
division), which equals `⌊(a / b) * n⌋`, exactly what
`Math.floor(Math.random() * array.length)` computes (the bridging lemma
`draw_index_eq_floor` below proves the identity).  The rejection
sampling loop of `generateRandomDistinctCharacters` is embedded with an
explicit fuel argument: `none` means the fuel ran out before the loop
exited, so termination statements quantify over fuel.
-/

set_option maxRecDepth 8192

namespace CampaignDealer

/-! ## Character domain (`shared/types/character.ts`) -/

/-- The three player archetypes, in `Object.values(CharacterArchetype)` order. -/
inductive CharacterArchetype where
  | king
  | queen
  | jack
deriving DecidableEq, Repr, Inhabited, Fintype

/-- The three player suits (diamonds excluded), in `Object.values(CharacterSuit)` order. -/
inductive CharacterSuit where
  | hearts
  | clubs
  | spades
deriving DecidableEq, Repr, Inhabited, Fintype

/-- `Object.values(CharacterSuit)` as read by the randomizer. -/
def suitsList : List CharacterSuit := [.hearts, .clubs, .spades]

/-- `Object.values(CharacterArchetype)` as read by the randomizer. -/
def archetypesList : List CharacterArchetype := [.king, .queen, .jack]

/-- The `uses` sub-object of a `CharacterSkill`. -/
structure SkillUses where
  usesLeft : Int
  maxUses : Int
deriving DecidableEq, Repr, Inhabited

/-- A character skill: i18n name/description keys and optional limited uses. -/
structure CharacterSkill where
  name : String
  description : String
  uses : Option SkillUses := none
deriving DecidableEq, Repr, Inhabited

/-- A record indexed by the three player suits (the `{hearts, clubs, spades}`
object shape used for `damage` and `modifiers`). -/
structure SuitRecord (α : Type) where
  hearts : α
  clubs : α
  spades : α
deriving DecidableEq, Repr

/-- Read the field of a `SuitRecord` selected by a suit. -/
def SuitRecord.get {α : Type} (m : SuitRecord α) : CharacterSuit → α
  | .hearts => m.hearts
  | .clubs => m.clubs
  | .spades => m.spades

/-- Overwrite the field of a `SuitRecord` selected by a suit
(models `record[suit] = v`). -/
def SuitRecord.put {α : Type} (m : SuitRecord α) : CharacterSuit → α → SuitRecord α
  | .hearts, v => { m with hearts := v }
  | .clubs, v => { m with clubs := v }
  | .spades, v => { m with spades := v }

/-! ## Game-data tables (`server/data/houseDoesntWin/characterTemplates.ts`) -/

/-- `i18nSkill`: builds the `.name`/`.description` i18n key pair from a prefix
(the embedded skill has no `uses` field, i.e. `uses := none`). -/
def i18nSkill (keyPrefix : String) : CharacterSkill :=
  { name := keyPrefix ++ ".name", description := keyPrefix ++ ".description" }

/-- `jackSuitSkills` table. -/
def jackSuitSkills : CharacterSuit → CharacterSkill
  | .hearts => i18nSkill ("skills.jack.suit.hearts")
  | .clubs => { i18nSkill ("skills.jack.suit.clubs") with uses := some ⟨1, 1⟩ }
  | .spades => i18nSkill ("skills.jack.suit.spades")

/-- `jackArchetypeSkills` table (seven skills). -/
def jackArchetypeSkills : List CharacterSkill :=
  [ i18nSkill ("skills.jack.archetype.skill1"),
    { i18nSkill ("skills.jack.archetype.skill2") with uses := some ⟨1, 1⟩ },
    { i18nSkill ("skills.jack.archetype.skill3") with uses := some ⟨1, 1⟩ },
    { i18nSkill ("skills.jack.archetype.skill4") with uses := some ⟨3, 3⟩ },
    i18nSkill ("skills.jack.archetype.skill5"),
    { i18nSkill ("skills.jack.archetype.skill6") with uses := some ⟨1, 1⟩ },
    i18nSkill ("skills.jack.archetype.skill7") ]

/-- `jackCharacterization` prose. -/
def jackCharacterization : String :=
  "The Jack is more at ease on the front line than in the rear guard. He excels\nwhen he throws himself headlong into situations and is skilled at improvising.\nIf you like a Character who always gets a second chance and has a special\ntalent for getting out of tight spots, then the Jack is the Archetype for you."

/-- `queenSuitSkills` table. -/
def queenSuitSkills : CharacterSuit → CharacterSkill
  | .hearts => { i18nSkill ("skills.queen.suit.hearts") with uses := some ⟨2, 2⟩ }
  | .clubs => i18nSkill ("skills.queen.suit.clubs")
  | .spades => i18nSkill ("skills.queen.suit.spades")

/-- `queenArchetypeSkills` table (seven skills). -/
def queenArchetypeSkills : List CharacterSkill :=
  [ i18nSkill ("skills.queen.archetype.skill1"),
    i18nSkill ("skills.queen.archetype.skill2"),
    { i18nSkill ("skills.queen.archetype.skill3") with uses := some ⟨3, 3⟩ },
    { i18nSkill ("skills.queen.archetype.skill4") with uses := some ⟨1, 1⟩ },
    { i18nSkill ("skills.queen.archetype.skill5") with uses := some ⟨3, 3⟩ },
    { i18nSkill ("skills.queen.archetype.skill6") with uses := some ⟨3, 3⟩ },
    { i18nSkill ("skills.queen.archetype.skill7") with uses := some ⟨3, 3⟩ } ]

/-- `queenCharacterization` prose. -/
def queenCharacterization : String :=
  "The Queen knows that every move toward success must be fueled not only by\nideas, but also by flesh and blood. She manages people the way a soldier\nmanages ammunition: never wasting them, but willing to sacrifice them.\nIf you like a Character who leads from the rear and juggles the lives of\nothers, then the Queen is the Archetype for you."

/-- `kingSuitSkills` table. -/
def kingSuitSkills : CharacterSuit → CharacterSkill
  | .hearts => i18nSkill ("skills.king.suit.hearts")
  | .clubs => i18nSkill ("skills.king.suit.clubs")
  | .spades => i18nSkill ("skills.king.suit.spades")

/-- `kingArchetypeSkills` table (seven skills). -/
def kingArchetypeSkills : List CharacterSkill :=
  [ i18nSkill ("skills.king.archetype.skill1"),
    i18nSkill ("skills.king.archetype.skill2"),
    i18nSkill ("skills.king.archetype.skill3"),
    i18nSkill ("skills.king.archetype.skill4"),
    i18nSkill ("skills.king.archetype.skill5"),
    i18nSkill ("skills.king.archetype.skill6"),
    i18nSkill ("skills.king.archetype.skill7") ]

/-- `kingCharacterization` prose. -/
def kingCharacterization : String :=
  "The King has a plan for every contingency, an escape route for every\nunexpected turn, and the ability to bend the rules to his advantage. He knows\nthat timing is everything. If you like a Character who always has an ace up\nhis sleeve and as many allies as enemies, then the King is the Archetype for you."

/-- `clubsCharacterization` prose. -/
def clubsCharacterization : String :=
  "Clubs characters lead with their body and their will. They break down\ndoors rather than pick locks, endure punishment rather than avoid it, and\ncommand rooms with their sheer, unshakeable presence. If you like a Character\nwho charges headlong into the thick of it and never stops pushing forward,\nthen Clubs is your suit."

/-- `heartsCharacterization` prose. -/
def heartsCharacterization : String :=
  "Hearts characters know that the right word, spoken at the right moment,\nis worth more than any weapon. They read people like cards, weave charm and\ncunning into something sharper than steel, and always seem to know exactly\nwhat someone needs to hear. If you like a Character who wins before the fight\neven starts — through persuasion, wit, and an eye for what others miss —\nthen Hearts is your suit."

/-- `spadesCharacterization` prose. -/
def spadesCharacterization : String :=
  "Spades characters move through the world like smoke — precise, silent,\nand gone before anyone realizes they were there. They prefer a steady hand\nover a heavy fist, finesse over force, and always know three ways out of any\nroom. If you like a Character who slips through the cracks and pulls off the\nimpossible with a light touch and a quiet step, then Spades is your suit."

/-- `suitCharacterizations` configuration map. -/
def suitCharacterizations : CharacterSuit → String
  | .clubs => clubsCharacterization
  | .hearts => heartsCharacterization
  | .spades => spadesCharacterization

/-- `archetypeCharacterizations` configuration map. -/
def archetypeCharacterizations : CharacterArchetype → String
  | .jack => jackCharacterization
  | .queen => queenCharacterization
  | .king => kingCharacterization

/-- `suitSkills` configuration map, keyed by archetype then suit. -/
def suitSkills : CharacterArchetype → CharacterSuit → CharacterSkill
  | .jack => jackSuitSkills
  | .queen => queenSuitSkills
  | .king => kingSuitSkills

/-- `archetypeSkills` configuration map, keyed by archetype. -/
def archetypeSkills : CharacterArchetype → List CharacterSkill
  | .jack => jackArchetypeSkills
  | .queen => queenArchetypeSkills
  | .king => kingArchetypeSkills

/-! ## Error and result plumbing (`server/utils/errors.ts`) -/

/-- An `AppError`: name tag, HTTP status code and message.  `ValidationError`
carries 422, `AIProviderError` and `AIResponseError` carry 502. -/
structure AppError where
  name : String
  statusCode : Int
  message : String
deriving DecidableEq, Repr

/-- `new ValidationError(message)`. -/
def mkValidationError (message : String) : AppError :=
  { name := "ValidationError", statusCode := 422, message := message }

/-- `new AIProviderError(message)`. -/
def mkAIProviderError (message : String) : AppError :=
  { name := "AIProviderError", statusCode := 502, message := message }

/-- `new AIResponseError(message)`. -/
def mkAIResponseError (message : String) : AppError :=
  { name := "AIResponseError", statusCode := 502, message := message }

/-- The `Result<T, E>` discriminated union of `server/utils/errors.ts`
(`ok`/`err` constructors). -/
inductive RResult (α : Type) (ε : Type) where
  | ok (value : α)
  | err (error : ε)
deriving DecidableEq, Repr

/-- Does a `RResult` hold a success value? -/
def RResult.isOk {α ε : Type} : RResult α ε → Bool
  | .ok _ => true
  | .err _ => false

/-! ## Character randomizer (`server/services/rpg/characterRandomizer.ts`) -/

/-- A `CharacterTemplate`: `CharacterSheet` minus the identity, plus the two
characterization strings (field order as in the source's return object). -/
structure CharacterTemplate where
  suit : CharacterSuit
  archetype : CharacterArchetype
  damage : SuitRecord Bool
  modifiers : SuitRecord Int
  suitSkill : CharacterSkill
  suitCharacterization : String
  archetypeSkills : List CharacterSkill
  archetypeCharacterization : String
deriving DecidableEq, Repr

/-- One `Math.random()` draw, as the exact rational `r.1 / r.2 ∈ [0,1)`
(`r.1 < r.2` where a property needs it; `Math.random` outputs are the dyadic
rationals `k / 2^53`, all of this shape). -/
def RandDraw : Type := Nat × Nat

/-- `getRandomElement`: with `Math.random()` returning `r = a/b ∈ [0,1)`, the
chosen index `Math.floor((a/b) * array.length)` equals `a * array.length / b`
in natural division (see `draw_index_eq_floor`). -/
def getRandomElement {α : Type} [Inhabited α] (array : List α) (r : RandDraw) : α :=
  array.getD (r.1 * array.length / r.2) default

/-- `malusSuitMap`: the fixed 3-cycle sending each suit to the suit that
receives the `+1` modifier. -/
def malusSuitMap : CharacterSuit → CharacterSuit
  | .hearts => .clubs
  | .clubs => .spades
  | .spades => .hearts

/-- `getSuitModifiers`: all-zero record, then `-1` at the given suit and `+1`
at its malus suit, assigned in that order. -/
def getSuitModifiers (suit : CharacterSuit) : SuitRecord Int :=
  let modifiers : SuitRecord Int := ⟨0, 0, 0⟩
  let malusSuit := malusSuitMap suit
  let modifiers := modifiers.put suit (-1)
  let modifiers := modifiers.put malusSuit 1
  modifiers

/-- `generateCharacter`, with the three `Math.random()` draws it makes passed
explicitly in call order: suit draw, archetype draw, archetype-skill draw. -/
def generateCharacter (r1 r2 r3 : RandDraw) : CharacterTemplate :=
  let suits := suitsList
  let archetypes := archetypesList
  let randomSuit := getRandomElement suits r1
  let randomArchetype := getRandomElement archetypes r2
  let suitSkill := suitSkills randomArchetype randomSuit
  let suitCharacterization := suitCharacterizations randomSuit
  let randomArchetypeSkill := getRandomElement (archetypeSkills randomArchetype) r3
  let archetypeCharacterization := archetypeCharacterizations randomArchetype
  { suit := randomSuit,
    archetype := randomArchetype,
    damage := ⟨false, false, false⟩,
    modifiers := getSuitModifiers randomSuit,
    suitSkill := suitSkill,
    suitCharacterization := suitCharacterization,
    archetypeSkills := [randomArchetypeSkill],
    archetypeCharacterization := archetypeCharacterization }

/-- Names of the archetype enum values, as interpolated into the map key. -/
def archetypeName : CharacterArchetype → String
  | .king => "king"
  | .queen => "queen"
  | .jack => "jack"

/-- Names of the suit enum values, as interpolated into the map key. -/
def suitName : CharacterSuit → String
  | .hearts => "hearts"
  | .clubs => "clubs"
  | .spades => "spades"

/-- The template-literal map key `` `${archetype}-${suit}` ``. -/
def pairKey (a : CharacterArchetype) (s : CharacterSuit) : String :=
  archetypeName a ++ "-" ++ suitName s

/-- One random stream: the value of the n-th `Math.random()` call. -/
def RandStream : Type := Nat → RandDraw

/-- The template generated at loop iteration `iter` (iteration `i` consumes
stream draws `3i`, `3i+1`, `3i+2`). -/
def drawnTemplate (rand : RandStream) (iter : Nat) : CharacterTemplate :=
  generateCharacter (rand (3 * iter)) (rand (3 * iter + 1)) (rand (3 * iter + 2))

/-- The `${archetype}-${suit}` key of the template drawn at iteration `iter`. -/
def drawnKey (rand : RandStream) (iter : Nat) : String :=
  pairKey (drawnTemplate rand iter).archetype (drawnTemplate rand iter).suit

/-- The `while (generatedCharacters.size < count)` loop of
`generateRandomDistinctCharacters`.  The accumulator is the `Map` as an
insertion-ordered association list; `Map.has` is a key scan, `Map.set` an
append.  `fuel` bounds how many iterations may still run: `none` means the
loop had not exited after `fuel` iterations. -/
def genLoop (rand : RandStream) (count : Int) :
    Nat → Nat → List (String × CharacterTemplate) →
    Option (List (String × CharacterTemplate))
  | 0, _, acc =>
    if (acc.length : Int) < count then none else some acc
  | fuel + 1, iter, acc =>
    if (acc.length : Int) < count then
      let newCharacter := drawnTemplate rand iter
      let key := pairKey newCharacter.archetype newCharacter.suit
      let acc' :=
        if acc.any (fun p => p.1 = key) then acc else acc ++ [(key, newCharacter)]
      genLoop rand count fuel (iter + 1) acc'
    else
      some acc

/-- `maxDistinct = suits.length * archetypes.length`. -/
def maxDistinct : Int := (suitsList.length : Int) * (archetypesList.length : Int)

/-- The validation-error message built for an oversized `count`. -/
def tooManyMsg (count : Int) : String :=
  "Cannot generate " ++ toString count ++ " distinct characters: only " ++
    toString maxDistinct ++ " unique archetype-suit combinations exist."

/-- `generateRandomDistinctCharacters(count)`, over an explicit random stream
and loop fuel.  `some (.err e)` is the immediate validation failure,
`some (.ok ts)` the `ok(Array.from(map.values()))` success, and `none` means
the rejection-sampling loop had not finished within `fuel` iterations. -/
def generateRandomDistinctCharacters (rand : RandStream) (count : Int)
    (fuel : Nat) : Option (RResult (List CharacterTemplate) AppError) :=
  if count > maxDistinct then
    some (.err (mkValidationError (tooManyMsg count)))
  else
    (genLoop rand count fuel 0 []).map (fun acc => .ok (acc.map Prod.snd))

/-! ## JSON values and a model of JavaScript's `JSON.parse`

`parseAIJson` calls `JSON.parse`; the claims about it need an executable
strict JSON parser.  Values are the constructors of the JSON grammar; a
number is carried as the exact rational its literal denotes (JavaScript
rounds to binary floating point, which none of the checked properties
observe).  Objects keep insertion order; a duplicate key overwrites the
earlier value in place, as JavaScript property assignment does. -/

/-- A parsed JSON value. -/
inductive JVal where
  | jnull
  | jbool (b : Bool)
  | jnum (q : ℚ)
  | jstr (s : String)
  | jarr (elements : List JVal)
  | jobj (members : List (String × JVal))
deriving Repr

/-- JSON's whitespace set (the only characters `JSON.parse` skips). -/
def isJsonWs (c : Char) : Bool :=
  c == ' ' || c == '\t' || c == '\n' || c == '\r'

/-- Skip JSON whitespace. -/
def dropJsonWs : List Char → List Char
  | [] => []
  | c :: rest => if isJsonWs c then dropJsonWs rest else c :: rest

/-- First-match association-list read, like JavaScript property access on the
unique-keyed objects `JSON.parse` builds. -/
def getMem : List (String × JVal) → String → Option JVal
  | [], _ => none
  | (k, v) :: rest, key => if k = key then some v else getMem rest key

/-- JavaScript object assignment: overwrite an existing key in place (keeping
its position), else append. -/
def objPut : List (String × JVal) → String → JVal → List (String × JVal)
  | [], key, v => [(key, v)]
  | (k, w) :: rest, key, v =>
    if k = key then (key, v) :: rest else (k, w) :: objPut rest key v

/-- Decimal digit test (JSON grammar digits are ASCII). -/
def isDigitChar (c : Char) : Bool := '0' ≤ c && c ≤ '9'

/-- Split the longest digit run off the front. -/
def spanDigits : List Char → List Char × List Char
  | [] => ([], [])
  | c :: rest =>
    if isDigitChar c then
      let (ds, tl) := spanDigits rest
      (c :: ds, tl)
    else ([], c :: rest)

/-- Numeric value of a digit run. -/
def digitsVal (ds : List Char) : Nat :=
  ds.foldl (fun acc c => 10 * acc + (c.toNat - 48)) 0

/-- Value of one hex digit, if it is one. -/
def hexDigitVal (c : Char) : Option Nat :=
  if '0' ≤ c && c ≤ '9' then some (c.toNat - 48)
  else if 'a' ≤ c && c ≤ 'f' then some (c.toNat - 87)
  else if 'A' ≤ c && c ≤ 'F' then some (c.toNat - 55)
  else none

/-- Value of a four-hex-digit escape payload. -/
def hexQuad (a b c d : Char) : Option Nat := do
  let va ← hexDigitVal a
  let vb ← hexDigitVal b
  let vc ← hexDigitVal c
  let vd ← hexDigitVal d
  some (va * 4096 + vb * 256 + vc * 16 + vd)

/-- The single-character JSON string escapes. -/
def simpleEscape : Char → Option Char
  | '"' => some '"'
  | '\\' => some '\\'
  | '/' => some '/'
  | 'b' => some (Char.ofNat 8)
  | 'f' => some (Char.ofNat 12)
  | 'n' => some '\n'
  | 'r' => some '\r'
  | 't' => some '\t'
  | _ => none

/-- Body of a JSON string after the opening quote.  Raw control characters
are rejected, as `JSON.parse` rejects them.  A `\uXXXX` high surrogate
followed by a `\uXXXX` low surrogate yields the combined scalar, as the pair
denotes in JavaScript's UTF-16 strings; a lone surrogate has no Lean `Char`
counterpart and degrades to `Char.ofNat`'s fallback (no checked property
exercises lone surrogates). -/
def parseStringBody (fuel : Nat) (acc : List Char) (cs : List Char) :
    Option (String × List Char) :=
  match fuel with
  | 0 => none
  | fuel + 1 =>
    match cs with
    | [] => none
    | '"' :: rest => some (⟨acc.reverse⟩, rest)
    | '\\' :: 'u' :: a :: b :: c :: d :: rest =>
      match hexQuad a b c d with
      | none => none
      | some hi =>
        if 0xD800 ≤ hi && hi < 0xDC00 then
          match rest with
          | '\\' :: 'u' :: a2 :: b2 :: c2 :: d2 :: rest2 =>
            match hexQuad a2 b2 c2 d2 with
            | some lo =>
              if 0xDC00 ≤ lo && lo < 0xE000 then
                let scalar := 0x10000 + (hi - 0xD800) * 0x400 + (lo - 0xDC00)
                parseStringBody fuel (Char.ofNat scalar :: acc) rest2
              else parseStringBody fuel (Char.ofNat hi :: acc) rest
            | none => parseStringBody fuel (Char.ofNat hi :: acc) rest
          | _ => parseStringBody fuel (Char.ofNat hi :: acc) rest
        else parseStringBody fuel (Char.ofNat hi :: acc) rest
    | '\\' :: e :: rest =>
      match simpleEscape e with
      | some ch => parseStringBody fuel (ch :: acc) rest
      | none => none
    | c :: rest =>
      if c.toNat < 0x20 then none else parseStringBody fuel (c :: acc) rest

/-- A JSON number literal, as the exact rational it denotes.  Leading-zero,
bare-dot and empty-exponent forms are rejected per the JSON grammar. -/
def parseNumberLit (cs : List Char) : Option (ℚ × List Char) :=
  let (neg, cs1) := match cs with
    | '-' :: r => (true, r)
    | _ => (false, cs)
  match spanDigits cs1 with
  | ([], _) => none
  | (intDs, cs2) =>
    if intDs.length > 1 && intDs.headD '0' = '0' then none
    else
      let (fracDs, cs3) := match cs2 with
        | '.' :: r => spanDigits r
        | _ => ([], cs2)
      let fracPresent := match cs2 with
        | '.' :: _ => true
        | _ => false
      if fracPresent && fracDs.isEmpty then none
      else
        let (expOk, expVal, cs4) : Bool × Int × List Char := match cs3 with
          | 'e' :: r | 'E' :: r =>
            let (esign, r1) : Int × List Char := match r with
              | '+' :: r2 => (1, r2)
              | '-' :: r2 => (-1, r2)
              | _ => (1, r)
            match spanDigits r1 with
            | ([], _) => (false, 0, r1)
            | (eds, r2) => (true, esign * (digitsVal eds : Int), r2)
          | _ => (true, 0, cs3)
        if !expOk then none
        else
          let mantissa : Nat := digitsVal (intDs ++ fracDs)
          let exponent : Int := expVal - (fracDs.length : Int)
          let magnitude : ℚ := (mantissa : ℚ) * (10 : ℚ) ^ exponent
          some ((if neg then -magnitude else magnitude), cs4)

mutual

/-- One JSON value (leading whitespace allowed), returning the remainder. -/
def parseJValue (fuel : Nat) (cs : List Char) : Option (JVal × List Char) :=
  match fuel with
  | 0 => none
  | fuel + 1 =>
    match dropJsonWs cs with
    | 'n' :: 'u' :: 'l' :: 'l' :: rest => some (.jnull, rest)
    | 't' :: 'r' :: 'u' :: 'e' :: rest => some (.jbool true, rest)
    | 'f' :: 'a' :: 'l' :: 's' :: 'e' :: rest => some (.jbool false, rest)
    | '"' :: rest =>
      match parseStringBody (rest.length + 1) [] rest with
      | some (s, rest2) => some (.jstr s, rest2)
      | none => none
    | '[' :: rest =>
      (match dropJsonWs rest with
       | ']' :: rest2 => some (.jarr [], rest2)
       | other => match parseJElements fuel other with
         | some (es, rest2) => some (.jarr es, rest2)
         | none => none)
    | '{' :: rest =>
      (match dropJsonWs rest with
       | '}' :: rest2 => some (.jobj [], rest2)
       | other => match parseJMembers fuel other [] with
         | some (ms, rest2) => some (.jobj ms, rest2)
         | none => none)
    | other =>
      match parseNumberLit other with
      | some (q, rest) => some (.jnum q, rest)
      | none => none

/-- One or more comma-separated array elements and the closing bracket. -/
def parseJElements (fuel : Nat) (cs : List Char) : Option (List JVal × List Char) :=
  match fuel with
  | 0 => none
  | fuel + 1 =>
    match parseJValue fuel cs with
    | none => none
    | some (v, rest) =>
      match dropJsonWs rest with
      | ',' :: rest2 =>
        (match parseJElements fuel rest2 with
         | some (vs, rest3) => some (v :: vs, rest3)
         | none => none)
      | ']' :: rest2 => some ([v], rest2)
      | _ => none

/-- One or more comma-separated object members and the closing brace,
accumulated with JavaScript assignment semantics. -/
def parseJMembers (fuel : Nat) (cs : List Char) (acc : List (String × JVal)) :
    Option (List (String × JVal) × List Char) :=
  match fuel with
  | 0 => none
  | fuel + 1 =>
    match dropJsonWs cs with
    | '"' :: rest =>
      (match parseStringBody (rest.length + 1) [] rest with
       | none => none
       | some (key, rest2) =>
         match dropJsonWs rest2 with
         | ':' :: rest3 =>
           (match parseJValue fuel rest3 with
            | none => none
            | some (v, rest4) =>
              let acc2 := objPut acc key v
              match dropJsonWs rest4 with
              | ',' :: rest5 => parseJMembers fuel rest5 acc2
              | '}' :: rest5 => some (acc2, rest5)
              | _ => none)
         | _ => none)
    | _ => none

end

/-- Strict `JSON.parse` on a whole string: one value, then only whitespace. -/
def jparse (s : String) : Option JVal :=
  let cs := s.data
  match parseJValue (4 * cs.length + 16) cs with
  | some (v, rest) => if (dropJsonWs rest).isEmpty then some v else none
  | none => none

/-! ## AI-output normalization (`server/utils/parseAIJson.ts`, Result variant) -/

/-- The whitespace class of JavaScript regular expressions (`\s`) and of
`String.prototype.trim` — identical sets. -/
def isJsWsChar (c : Char) : Bool :=
  c == ' ' || c == '\t' || c == '\n' || c == '\x0b' || c == '\x0c' || c == '\r' ||
    c == '\u00A0' || c == '\u1680' || ('\u2000' ≤ c && c ≤ '\u200A') ||
    c == '\u2028' || c == '\u2029' || c == '\u202F' || c == '\u205F' ||
    c == '\u3000' || c == '\uFEFF'

/-- JavaScript's `\w`/`\b` word characters (ASCII letters, digits, underscore). -/
def isWordChar (c : Char) : Bool :=
  ('a' ≤ c && c ≤ 'z') || ('A' ≤ c && c ≤ 'Z') || ('0' ≤ c && c ≤ '9') || c == '_'

/-- The literal token the `undefined` substitution looks for. -/
def undefinedToken : List Char := ['u', 'n', 'd', 'e', 'f', 'i', 'n', 'e', 'd']

/-- The `\b` test after `undefined`: end of input, or a non-word character. -/
def wordBoundaryAfter : List Char → Bool
  | [] => true
  | c :: _ => !isWordChar c

/-- `text.replace(/:\s*undefined\b/g, ": null")` as a fuel-indexed scan (one
unit of fuel per step; every step consumes at least one character, so
`l.length` fuel always suffices — `replaceUndefSteps_fuel_irrelevant` below —
and the fuel keeps the recursion structural).  At a colon, greedily skip
`\s*`, and if the literal `undefined` followed by a word boundary is next,
emit `: null` and resume after the token (the regex has no notion of JSON
quoting, so occurrences inside string literals are rewritten too); otherwise
emit the colon and rescan from the next character. -/
def replaceUndefSteps : Nat → List Char → List Char
  | 0, l => l
  | _ + 1, [] => []
  | fuel + 1, c :: rest =>
    if c = ':' then
      let afterWs := rest.dropWhile isJsWsChar
      if undefinedToken.isPrefixOf afterWs && wordBoundaryAfter (afterWs.drop 9) then
        ':' :: ' ' :: 'n' :: 'u' :: 'l' :: 'l' :: replaceUndefSteps fuel (afterWs.drop 9)
      else ':' :: replaceUndefSteps fuel rest
    else c :: replaceUndefSteps fuel rest

/-- The whole `:\s*undefined\b` → `: null` global replacement. -/
def replaceUndefNull (l : List Char) : List Char :=
  replaceUndefSteps l.length l

/-- The backtick character (the fence delimiter). -/
def backtickChar : Char := Char.ofNat 96

/-- An opening/closing triple fence. -/
def fenceTicks : List Char := [backtickChar, backtickChar, backtickChar]

/-- The optional `json` tag after the opening fence. -/
def jsonTag : List Char := ['j', 's', 'o', 'n']

/-- Index of the last `'\n'` in a list, if any (used on the maximal `\s` run:
the greedy `\s*\n` consumes exactly through the run's last newline). -/
def lastNewlineIdx : List Char → Option Nat
  | [] => none
  | c :: rest =>
    match lastNewlineIdx rest with
    | some i => some (i + 1)
    | none => if c = '\n' then some 0 else none

/-- Split off the lazy capture group: the characters before the first
occurrence of a closing fence, or `none` when no closing fence follows. -/
def splitAtClosingFence : List Char → Option (List Char)
  | [] => none
  | c :: rest =>
    if fenceTicks.isPrefixOf (c :: rest) then some []
    else (splitAtClosingFence rest).map (fun tl => c :: tl)

/-- Match `\s*\n([\s\S]*?)` plus the closing fence, starting after the opening
fence (and optional tag).  The greedy `\s*` backtracks until the next
character is a newline, i.e. it consumes through the last newline of the
whitespace run; trying an earlier newline instead cannot change the outcome,
because the extra characters then prepended to the capture search are all
whitespace and so contain no fence. -/
def matchFenceBody (l : List Char) : Option (List Char) :=
  match lastNewlineIdx (l.takeWhile isJsWsChar) with
  | none => none
  | some i => splitAtClosingFence (l.drop (i + 1))

/-- Try the whole fence pattern at one start position, with the regex's
preference order for the optional `json` tag (with the tag first). -/
def tryFenceAt (l : List Char) : Option (List Char) :=
  if fenceTicks.isPrefixOf l then
    let afterTicks := l.drop 3
    if jsonTag.isPrefixOf afterTicks then
      match matchFenceBody (afterTicks.drop 4) with
      | some body => some body
      | none => matchFenceBody afterTicks
    else matchFenceBody afterTicks
  else none

/-- Leftmost match of ``/```(?:json)?\s*\n([\s\S]*?)```/``, returning the
capture group. -/
def findFence : List Char → Option (List Char)
  | [] => none
  | c :: rest =>
    match tryFenceAt (c :: rest) with
    | some body => some body
    | none => findFence rest

/-- `String.prototype.trim` (same whitespace set as `\s`). -/
def jsTrim (l : List Char) : List Char :=
  ((l.dropWhile isJsWsChar).reverse.dropWhile isJsWsChar).reverse

/-- Steps (1)–(3) of `parseAIJson` shared by implementation and spec reading:
fenced-block extraction, the colon-`undefined` substitution, and trim. -/
def normalizeAIText (raw : String) : String :=
  let text := raw.data
  let text := match findFence text with
    | some fenced => fenced
    | none => text
  let text := replaceUndefNull text
  ⟨jsTrim text⟩

/-- The `!parsedJson || typeof parsedJson !== "object"` rejection: only a
non-null object survives (arrays are objects and always truthy; `null` is of
object type but falsy; every other JSON value fails the `typeof` test). -/
def isObjLike : JVal → Bool
  | .jobj _ => true
  | .jarr _ => true
  | _ => false

/-- `parseAIJson` (the `Result`-returning variant): normalize, then
`JSON.parse(jsonrepair(text))` with the non-null-object check.  The
third-party `jsonrepair` is the abstract `repair` argument; `none` models a
thrown `JSONRepairError`, and a `JSON.parse` failure on the repaired text is
the same catch block, both yielding the parse-failure error. -/
def parseAIJson (repair : String → Option String) (raw : String) :
    RResult JVal String :=
  let text := normalizeAIText raw
  match repair text with
  | none => .err ("Failed to parse AI JSON response")
  | some repaired =>
    match jparse repaired with
    | none => .err ("Failed to parse AI JSON response")
    | some parsedJson =>
      if isObjLike parsedJson then .ok parsedJson
      else .err ("Parsed JSON is falsy")

/-- The spec's reading of step (4): attempt the strict parse first and run the
repair pass only on failure; succeed only with a non-null object. -/
def specParseAIJson (repair : String → Option String) (raw : String) :
    Option JVal :=
  let text := normalizeAIText raw
  let parsed := match jparse text with
    | some v => some v
    | none => (repair text).bind jparse
  match parsed with
  | some v => if isObjLike v then some v else none
  | none => none

/-- The only property of `jsonrepair` the equivalence needs: repairing text
that already parses yields text that parses to the same value (valid JSON
passes through the repair unchanged up to value). -/
def RepairFaithful (repair : String → Option String) : Prop :=
  ∀ s v, jparse s = some v → ∃ s2, repair s = some s2 ∧ jparse s2 = some v

/-- A concrete stand-in for `jsonrepair`, used by witnesses: the identity on
every input except the one invalid text the examples exercise, where it
returns what the library returns (the text requoted as a JSON string). -/
def modelRepair (s : String) : Option String :=
  if s = "not json at all" then some ("\"not json at all\"") else some s

/-! ## Response validation (`server/utils/errors.ts`, `parseAndValidateAIResponse`) -/

/-- `parseAndValidateAIResponse`: parse the raw text, then run the zod schema,
with the schema modelled as its acceptance predicate on parsed JSON values
(zod's stripping of unknown object keys is not observed by any property
checked here). -/
def parseAndValidateAIResponse (repair : String → Option String) (raw : String)
    (schemaCheck : JVal → Bool) : RResult JVal AppError :=
  match parseAIJson repair raw with
  | .err _ => .err (mkAIResponseError ("AI returned an unparseable response"))
  | .ok parsed =>
    if schemaCheck parsed then .ok parsed
    else .err (mkAIResponseError ("AI returned an invalid response"))

/-- String test for schema fields. -/
def isStrVal : JVal → Bool
  | .jstr _ => true
  | _ => false

/-- Boolean test for schema fields. -/
def isBoolVal : JVal → Bool
  | .jbool _ => true
  | _ => false

/-- A required member satisfying a test. -/
def reqMem (members : List (String × JVal)) (key : String)
    (check : JVal → Bool) : Bool :=
  match getMem members key with
  | some v => check v
  | none => false

/-- An optional member: absent, or present and satisfying the test. -/
def optMem (members : List (String × JVal)) (key : String)
    (check : JVal → Bool) : Bool :=
  match getMem members key with
  | some v => check v
  | none => true

/-- `characterItemSchema` of `server/utils/validate.ts`:
`{name: string, concealed: boolean}`. -/
def characterItemCheck : JVal → Bool
  | .jobj members =>
    reqMem members ("name") isStrVal && reqMem members ("concealed") isBoolVal
  | _ => false

/-- `characterIdentitySchema` of `server/utils/validate.ts`: required `name`
string; optional `pronouns`/`concept` strings; optional `weapon`/`instrument`
items. -/
def characterIdentityCheck : JVal → Bool
  | .jobj members =>
    reqMem members ("name") isStrVal &&
      optMem members ("pronouns") isStrVal &&
      optMem members ("concept") isStrVal &&
      optMem members ("weapon") characterItemCheck &&
      optMem members ("instrument") characterItemCheck
  | _ => false

/-- One weak-point entry: `{name, role}`, both strings. -/
def weakPointCheck : JVal → Bool
  | .jobj members =>
    reqMem members ("name") isStrVal && reqMem members ("role") isStrVal
  | _ => false

/-- One antagonist target: `{name, description}`, both strings. -/
def targetCheck : JVal → Bool
  | .jobj members =>
    reqMem members ("name") isStrVal && reqMem members ("description") isStrVal
  | _ => false

/-- Modelled from the spec: `gameMasterScriptSchema`.  The zod schema named in
`server/api/campaign/script.post.ts` is not among the source files (only
its import and its call sites are), so its acceptance predicate is taken from the
spec's data model: `hook` a string; `targets` one `{name, description}` per
archetype label `king`/`queen`/`jack`; `weakPoints` exactly 10 `{name, role}`
entries; `scenes` a list of strings; `centralTension` and `plot` strings. -/
def gameMasterScriptCheck : JVal → Bool
  | .jobj members =>
    reqMem members ("hook") isStrVal &&
      (match getMem members ("targets") with
       | some (.jobj ts) =>
         reqMem ts ("king") targetCheck && reqMem ts ("queen") targetCheck &&
           reqMem ts ("jack") targetCheck
       | _ => false) &&
      (match getMem members ("weakPoints") with
       | some (.jarr ws) => ws.length == 10 && ws.all weakPointCheck
       | _ => false) &&
      (match getMem members ("scenes") with
       | some (.jarr ss) => ss.all isStrVal
       | _ => false) &&
      reqMem members ("centralTension") isStrVal &&
      reqMem members ("plot") isStrVal
  | _ => false

/-- The `weakPoints` member of a parsed response, when it is an array. -/
def weakPointsOf (v : JVal) : Option (List JVal) :=
  match v with
  | .jobj members =>
    match getMem members ("weakPoints") with
    | some (.jarr ws) => some ws
    | _ => none
  | _ => none

/-- A script response whose other fields are well-formed, with the weak-point
list a parameter: the shape used to state that the schema's only constraint
on `weakPoints` is the exact count of ten well-formed entries. -/
def sampleScript (ws : List JVal) : JVal :=
  .jobj [("hook", .jstr ("The city hides a secret.")),
         ("targets", .jobj
           [("king", .jobj [("name", .jstr ("K")), ("description", .jstr ("dK"))]),
            ("queen", .jobj [("name", .jstr ("Q")), ("description", .jstr ("dQ"))]),
            ("jack", .jobj [("name", .jstr ("J")), ("description", .jstr ("dJ"))])]),
         ("weakPoints", .jarr ws),
         ("scenes", .jarr [.jstr ("s1"), .jstr ("s2"), .jstr ("s3")]),
         ("centralTension", .jstr ("tension")),
         ("plot", .jstr ("plot"))]

/-- One well-formed weak-point entry. -/
def sampleWeakPoint : JVal :=
  .jobj [("name", .jstr ("Rat")), ("role", .jstr ("Informant"))]

/-! ## Provider registry and configuration (`server/services/ai/index.ts`) -/

/-- `runtimeConfig.ai`: provider name, optional API key, model override and
ollama host (absent runtime-config strings are `undefined`). -/
structure AIRuntimeConfig where
  provider : Option String
  apiKey : Option String
  model : Option String
  ollamaHost : Option String
deriving DecidableEq, Repr

/-- JavaScript string falsiness (`!s`): absent or empty. -/
def strFalsy : Option String → Bool
  | none => true
  | some s => s == ""

/-- `Object.values(AIProviderName)`. -/
def aiProviderNames : List String := ["anthropic", "ollama", "openai"]

/-- Message for an unconfigured provider. -/
def msgNoProvider : String :=
  "AI provider is not configured. Set runtimeConfig.ai.provider in nuxt.config.ts."

/-- Message for an unknown provider name. -/
def msgInvalidProvider (p : String) : String :=
  "Invalid AI provider \"" ++ p ++ "\". Valid options are: " ++
    String.intercalate (", ") aiProviderNames ++
    ". Set runtimeConfig.ai.provider in nuxt.config.ts."

/-- Message for ollama without a host. -/
def msgNoHost : String :=
  "AI provider \"ollama\" is configured but no host was provided. Set runtimeConfig.ai.ollamaHost via NUXT_AI_OLLAMA_HOST environment variable."

/-- Message for a remote provider without an API key. -/
def msgNoApiKey (p : String) : String :=
  "AI provider \"" ++ p ++
    "\" is configured but no API key was provided. Set runtimeConfig.ai.apiKey via NUXT_AI_API_KEY environment variable."

/-- Message for a registry miss. -/
def msgNotRegistered (p availableList : String) : String :=
  "AI provider \"" ++ p ++ "\" is not registered. Available providers: " ++
    availableList ++ ". Ensure the provider module is imported."

/-- `validateAiConfig`, check for check in source order. -/
def validateAiConfig (config : AIRuntimeConfig) :
    RResult AIRuntimeConfig AppError :=
  if strFalsy config.provider then .err (mkAIProviderError msgNoProvider)
  else
    let p := config.provider.getD ("")
    if !aiProviderNames.contains p then
      .err (mkAIProviderError (msgInvalidProvider p))
    else if p == "ollama" && strFalsy config.ollamaHost then
      .err (mkAIProviderError msgNoHost)
    else if strFalsy config.apiKey && p != "ollama" then
      .err (mkAIProviderError (msgNoApiKey p))
    else .ok config

/-- The provider registry: an insertion-ordered name→factory map (`π` is the
abstract provider type the factories build). -/
def Registry (π : Type) : Type := List (String × (AIRuntimeConfig → π))

/-- `[...providerRegistry.keys()]`. -/
def registryNames {π : Type} (reg : Registry π) : List String :=
  reg.map Prod.fst

/-- `keys.join(", ") || "(none)"`. -/
def availableStr (names : List String) : String :=
  let joined := String.intercalate (", ") names
  if joined == "" then ("(none)") else joined

/-- `getAIProvider`: validate the configuration, look the factory up in the
registry, and build the provider. -/
def getAIProvider {π : Type} (config : AIRuntimeConfig) (reg : Registry π) :
    RResult π AppError :=
  match validateAiConfig config with
  | .err e => .err e
  | .ok validated =>
    let p := validated.provider.getD ("")
    match reg.lookup p with
    | none =>
      .err (mkAIProviderError
        (msgNotRegistered p (availableStr (registryNames reg))))
    | some factory => .ok (factory validated)

/-! ## The characters endpoint (result-style variant of
`server/api/campaign/characters.post.ts`) -/

/-- `GenreGroups` flattened (`Object.values(GenreGroups).flat()`). -/
def allGenres : List String :=
  ["highFantasy", "darkFantasy", "swordAndSorcery", "mythicFantasy",
   "scienceFantasy", "cyberpunk", "spaceOpera", "postApocalyptic",
   "gothicHorror", "cosmicHorror", "survivalHorror",
   "urbanFantasy", "superhero", "alternateHistory", "conspiracyThriller",
   "wuxia", "isekai", "weirdWest",
   "steampunk", "dieselpunk", "biopunk", "clockpunk"]

/-- A characters request body, already shaped (a body of the wrong shape is
rejected by the same schema check and is not modelled separately). -/
structure CharactersRequest where
  playerCount : Int
  setting : List String
  language : String
deriving DecidableEq, Repr

/-- `charactersRequestSchema`: integer `playerCount` in `[1,9]`, a non-empty
list of known genre tags, and a known locale.  The `Locales` table the schema
enumerates is not among the source files, so it is the `locales` parameter. -/
def charactersRequestOk (locales : List String) (r : CharactersRequest) : Bool :=
  (1 ≤ r.playerCount && r.playerCount ≤ 9) &&
    (!r.setting.isEmpty && r.setting.all (fun g => allGenres.contains g)) &&
    locales.contains r.language

/-- A `CharacterSheet` as the endpoint assembles it: the template's mechanical
fields plus the schema-validated identity (field order as in the source's
return object). -/
structure CharacterSheet where
  archetype : CharacterArchetype
  suit : CharacterSuit
  damage : SuitRecord Bool
  modifiers : SuitRecord Int
  suitSkill : CharacterSkill
  archetypeSkills : List CharacterSkill
  characterIdentity : JVal
deriving Repr

/-- What the endpoint sends back: a thrown `createError` (status + message)
or the sheets. -/
inductive HttpReply where
  | fail (statusCode : Int) (statusMessage : String)
  | sheets (list : List CharacterSheet)
deriving Repr

/-- One `templates.map` callback body: `withAIProvider(provider.complete)`
(whose model is the `complete` stream: `.err` is a rejected backend call,
wrapped into the 502 `AI service error`), then
`parseAndValidateAIResponse(..., characterIdentitySchema, "characters")`,
then the sheet. -/
def processTemplate (repair : String → Option String)
    (complete : Nat → RResult String AppError) (i : Nat)
    (template : CharacterTemplate) : RResult CharacterSheet AppError :=
  match complete i with
  | .err _ => .err (mkAIProviderError ("AI service error"))
  | .ok text =>
    match parseAndValidateAIResponse repair text characterIdentityCheck with
    | .err e => .err e
    | .ok identity =>
      .ok { archetype := template.archetype,
            suit := template.suit,
            damage := template.damage,
            modifiers := template.modifiers,
            suitSkill := template.suitSkill,
            archetypeSkills := template.archetypeSkills,
            characterIdentity := identity }

/-- `Promise.all`: every per-template computation runs (so every one calls
`complete`); the first failure, in template order, rejects the whole batch. -/
def collectSheets : List (RResult CharacterSheet AppError) →
    RResult (List CharacterSheet) AppError
  | [] => .ok []
  | .err e :: _ => .err e
  | .ok s :: rest =>
    match collectSheets rest with
    | .ok ss => .ok (s :: ss)
    | .err e => .err e

/-- The result-style characters endpoint handler.  The returned `Nat` counts
how many times the configured provider's `complete` was invoked (the
`templates.map` callbacks each call it once, before any of them settles).
`none` propagates the randomizer loop's fuel exhaustion. -/
def charactersHandler {π : Type} (locales : List String)
    (req : CharactersRequest) (rand : RandStream) (fuel : Nat)
    (config : AIRuntimeConfig) (reg : Registry π)
    (repair : String → Option String)
    (complete : Nat → RResult String AppError) : Option (HttpReply × Nat) :=
  if !charactersRequestOk locales req then
    some (.fail 422 ("Validation failed"), 0)
  else
    match generateRandomDistinctCharacters rand req.playerCount fuel with
    | none => none
    | some (.err e) => some (.fail e.statusCode e.message, 0)
    | some (.ok templates) =>
      match getAIProvider config reg with
      | .err e => some (.fail e.statusCode e.message, 0)
      | .ok _provider =>
        let results := templates.enum.map
          (fun p => processTemplate repair complete p.1 p.2)
        match collectSheets results with
        | .err e => some (.fail e.statusCode e.message, templates.length)
        | .ok sheets => some (.sheets sheets, templates.length)

/-! ## Concrete streams used by witnesses -/

/-- A random stream whose iteration 0 draws (hearts, king) and iteration 1
draws (clubs, king): draw 3 is the rational 1/2, every other draw is 0. -/
def wRand : RandStream := fun n => if n = 3 then (1, 2) else (0, 1)

/-- The stream that always returns 0: every iteration draws (hearts, king). -/
def constRand : RandStream := fun _ => (0, 1)

/-! # Theorems -/

/-- The natural-division index used by `getRandomElement` is exactly the
`Math.floor(r * n)` of the draw's rational value. -/
theorem draw_index_eq_floor (a b n : Nat) :
    ((a * n / b : Nat) : ℤ) = ⌊((a : ℚ) / (b : ℚ)) * (n : ℚ)⌋ := by
  rw [div_mul_eq_mul_div]
  rw [show ((a : ℚ) * n) = ((a * n : ℕ) : ℚ) by push_cast; ring]
  rw [Rat.floor_natCast_div_natCast]
  exact Int.natCast_div _ _

/-- C3: every `CharacterTemplate` produced by `generateCharacter` has
modifiers summing to exactly 0, with exactly one `-1` (at the template's own
suit), exactly one `+1` (at the suit the fixed cycle hearts→clubs,
clubs→spades, spades→hearts assigns), `0` at the remaining suit, and damage
`{hearts: false, clubs: false, spades: false}`. -/
theorem generateCharacter_balanced (r1 r2 r3 : RandDraw) (t : CharacterTemplate)
    (h1 : r1.1 < r1.2) (h2 : r2.1 < r2.2) (h3 : r3.1 < r3.2)
    (ht : t = generateCharacter r1 r2 r3) :
    t.modifiers.hearts + t.modifiers.clubs + t.modifiers.spades = 0 ∧
      t.modifiers.get t.suit = -1 ∧
      t.modifiers.get (malusSuitMap t.suit) = 1 ∧
      (∀ s : CharacterSuit,
        s ≠ t.suit → s ≠ malusSuitMap t.suit → t.modifiers.get s = 0) ∧
      (suitsList.filter (fun s => t.modifiers.get s = -1)).length = 1 ∧
      (suitsList.filter (fun s => t.modifiers.get s = 1)).length = 1 ∧
      t.damage = ⟨false, false, false⟩ := by
  subst ht
  have key : ∀ su : CharacterSuit,
      (getSuitModifiers su).hearts + (getSuitModifiers su).clubs +
          (getSuitModifiers su).spades = 0 ∧
        (getSuitModifiers su).get su = -1 ∧
        (getSuitModifiers su).get (malusSuitMap su) = 1 ∧
        (∀ s : CharacterSuit,
          s ≠ su → s ≠ malusSuitMap su → (getSuitModifiers su).get s = 0) ∧
        (suitsList.filter (fun s => (getSuitModifiers su).get s = -1)).length = 1 ∧
        (suitsList.filter (fun s => (getSuitModifiers su).get s = 1)).length = 1 := by
    decide
  obtain ⟨a, b, c, d, e, f⟩ := key (generateCharacter r1 r2 r3).suit
  exact ⟨a, b, c, d, e, f, rfl⟩

/-- Witness for C3 at the all-zero draws (every hypothesis satisfiable). -/
theorem generateCharacter_balanced_witness :
    (generateCharacter (0, 1) (0, 1) (0, 1)).modifiers.hearts +
        (generateCharacter (0, 1) (0, 1) (0, 1)).modifiers.clubs +
        (generateCharacter (0, 1) (0, 1) (0, 1)).modifiers.spades = 0 ∧
      (generateCharacter (0, 1) (0, 1) (0, 1)).modifiers.get
        (generateCharacter (0, 1) (0, 1) (0, 1)).suit = -1 ∧
      (generateCharacter (0, 1) (0, 1) (0, 1)).modifiers.get
        (malusSuitMap (generateCharacter (0, 1) (0, 1) (0, 1)).suit) = 1 ∧
      (∀ s : CharacterSuit,
        s ≠ (generateCharacter (0, 1) (0, 1) (0, 1)).suit →
        s ≠ malusSuitMap (generateCharacter (0, 1) (0, 1) (0, 1)).suit →
        (generateCharacter (0, 1) (0, 1) (0, 1)).modifiers.get s = 0) ∧
      (suitsList.filter
        (fun s => (generateCharacter (0, 1) (0, 1) (0, 1)).modifiers.get s = -1)).length = 1 ∧
      (suitsList.filter
        (fun s => (generateCharacter (0, 1) (0, 1) (0, 1)).modifiers.get s = 1)).length = 1 ∧
      (generateCharacter (0, 1) (0, 1) (0, 1)).damage = ⟨false, false, false⟩ :=
  generateCharacter_balanced (0, 1) (0, 1) (0, 1) _
    (by decide) (by decide) (by decide) rfl

/-- C4: for every count above 9 the randomizer fails immediately — for every
random stream and any fuel, even zero — with a `ValidationError` (name
`ValidationError`, status 422) whose message contains both the requested
count and the literal maximum `9`. -/
theorem gen_count_over_max (count : Int) (rand : RandStream) (fuel : Nat)
    (h : count > 9) :
    generateRandomDistinctCharacters rand count fuel
        = some (.err (mkValidationError (tooManyMsg count))) ∧
      (mkValidationError (tooManyMsg count)).name = "ValidationError" ∧
      (mkValidationError (tooManyMsg count)).statusCode = 422 ∧
      (toString count).data <:+: (tooManyMsg count).data ∧
      ("9" : String).data <:+: (tooManyMsg count).data := by
  refine ⟨?_, rfl, rfl, ?_, ?_⟩
  · have hgt : count > maxDistinct := by
      have : maxDistinct = 9 := by decide
      omega
    unfold generateRandomDistinctCharacters
    rw [if_pos hgt]
  · refine ⟨("Cannot generate ").data,
      (" distinct characters: only " ++ toString maxDistinct ++
        " unique archetype-suit combinations exist.").data, ?_⟩
    simp [tooManyMsg, String.data_append, List.append_assoc]
  · have h9 : ("9" : String) = toString maxDistinct := by decide
    rw [h9]
    refine ⟨("Cannot generate " ++ toString count ++
      " distinct characters: only ").data,
      (" unique archetype-suit combinations exist.").data, ?_⟩
    simp [tooManyMsg, String.data_append, List.append_assoc]

/-- Witness for C4 at count 10. -/
theorem gen_count_over_max_witness :
    generateRandomDistinctCharacters constRand 10 0
        = some (.err (mkValidationError (tooManyMsg 10))) ∧
      (mkValidationError (tooManyMsg 10)).name = "ValidationError" ∧
      (mkValidationError (tooManyMsg 10)).statusCode = 422 ∧
      (toString (10 : Int)).data <:+: (tooManyMsg 10).data ∧
      ("9" : String).data <:+: (tooManyMsg 10).data :=
  gen_count_over_max 10 constRand 0 (by decide)

/-- C10: for every count ≤ 0 (in particular 0 and negatives) the randomizer
returns a success holding the empty array, for every random stream and any
fuel: the precondition check only rejects counts above 9, and the collection
loop body never runs because the map's size 0 is never below `count`. -/
theorem gen_count_nonpositive (count : Int) (rand : RandStream) (fuel : Nat)
    (h : count ≤ 0) :
    generateRandomDistinctCharacters rand count fuel = some (.ok []) := by
  unfold generateRandomDistinctCharacters
  rw [if_neg (by
    have : maxDistinct = 9 := by decide
    omega)]
  have hloop : genLoop rand count fuel 0 [] = some [] := by
    cases fuel with
    | zero =>
      unfold genLoop
      rw [if_neg (by
        simp only [List.length_nil, Int.natCast_zero]
        omega)]
    | succ fuel =>
      unfold genLoop
      rw [if_neg (by
        simp only [List.length_nil, Int.natCast_zero]
        omega)]
  rw [hloop]
  rfl

/-- Witness for C10 at count -3. -/
theorem gen_count_nonpositive_witness :
    generateRandomDistinctCharacters wRand (-3) 0 = some (.ok []) :=
  gen_count_nonpositive (-3) wRand 0 (by decide)

/-- Soundness invariant of the rejection-sampling loop: starting from an
accumulator with pairwise-distinct keys, each equal to its template's
(archetype, suit) key, and at most `count` entries, any exit value has the
same shape and exactly `count` entries. -/
theorem genLoop_sound (rand : RandStream) (count : Int) :
    ∀ (fuel iter : Nat) (acc res : List (String × CharacterTemplate)),
      (acc.map Prod.fst).Nodup →
      (∀ p ∈ acc, p.1 = pairKey p.2.archetype p.2.suit) →
      (acc.length : Int) ≤ count →
      genLoop rand count fuel iter acc = some res →
      (res.map Prod.fst).Nodup ∧
        (∀ p ∈ res, p.1 = pairKey p.2.archetype p.2.suit) ∧
        (res.length : Int) = count := by
  intro fuel
  induction fuel with
  | zero =>
    intro iter acc res hnd hkeys hle hrun
    unfold genLoop at hrun
    by_cases hlt : (acc.length : Int) < count
    · rw [if_pos hlt] at hrun
      exact absurd hrun (by simp)
    · rw [if_neg hlt] at hrun
      obtain rfl : acc = res := by injection hrun
      exact ⟨hnd, hkeys, by omega⟩
  | succ fuel ih =>
    intro iter acc res hnd hkeys hle hrun
    unfold genLoop at hrun
    by_cases hlt : (acc.length : Int) < count
    · rw [if_pos hlt] at hrun
      simp only [] at hrun
      by_cases hmem : acc.any (fun p =>
          p.1 = pairKey (drawnTemplate rand iter).archetype
            (drawnTemplate rand iter).suit)
      · rw [if_pos hmem] at hrun
        exact ih (iter + 1) acc res hnd hkeys hle hrun
      · rw [if_neg hmem] at hrun
        refine ih (iter + 1) _ res ?_ ?_ ?_ hrun
        · rw [List.map_append, List.nodup_append]
          refine ⟨hnd, by simp, ?_⟩
          intro k hk hk'
          simp only [List.map_cons, List.map_nil, List.mem_singleton] at hk'
          subst hk'
          obtain ⟨p, hp, hpk⟩ := List.mem_map.mp hk
          exact hmem (List.any_eq_true.mpr ⟨p, hp, by simpa using hpk⟩)
        · intro p hp
          rcases List.mem_append.mp hp with hin | hin
          · exact hkeys p hin
          · simp only [List.mem_singleton] at hin
            subst hin
            rfl
        · rw [List.length_append, List.length_singleton]
          push_cast
          omega
    · rw [if_neg hlt] at hrun
      obtain rfl : acc = res := by injection hrun
      exact ⟨hnd, hkeys, by omega⟩

/-- C1: for every count in [1,9], whenever the randomizer's loop exits (any
random stream, any sufficient fuel), the result is a success holding exactly
`count` templates whose (archetype, suit) pairs are pairwise distinct. -/
theorem gen_count_in_range (count : Int) (rand : RandStream) (fuel : Nat)
    (h1 : 1 ≤ count) (h2 : count ≤ 9)
    (out : RResult (List CharacterTemplate) AppError)
    (hrun : generateRandomDistinctCharacters rand count fuel = some out) :
    ∃ ts, out = .ok ts ∧ (ts.length : Int) = count ∧
      (ts.map (fun t => (t.archetype, t.suit))).Nodup := by
  unfold generateRandomDistinctCharacters at hrun
  rw [if_neg (by
    have : maxDistinct = 9 := by decide
    omega)] at hrun
  obtain ⟨acc, hacc, rfl⟩ : ∃ acc, genLoop rand count fuel 0 [] = some acc ∧
      out = .ok (acc.map Prod.snd) := by
    cases hg : genLoop rand count fuel 0 [] with
    | none =>
      rw [hg] at hrun
      exact absurd hrun (by simp)
    | some acc =>
      rw [hg] at hrun
      simp only [Option.map_some', Option.some.injEq] at hrun
      exact ⟨acc, rfl, hrun.symm⟩
  obtain ⟨hnd, hkeys, hlen⟩ :=
    genLoop_sound rand count fuel 0 [] acc (by exact List.nodup_nil) (by simp)
      (by simp only [List.length_nil, Int.natCast_zero]; omega) hacc
  refine ⟨acc.map Prod.snd, rfl, by simpa using hlen, ?_⟩
  have hmapeq : acc.map Prod.fst
      = ((acc.map Prod.snd).map (fun t => (t.archetype, t.suit))).map
          (fun pr => pairKey pr.1 pr.2) := by
    rw [List.map_map, List.map_map]
    exact List.map_congr_left (fun p hp => hkeys p hp)
  exact List.Nodup.of_map _ (hmapeq ▸ hnd)

/-- Witness for C1: a concrete stream and fuel on which the call returns,
with count 2. -/
theorem gen_count_in_range_witness :
    ∃ out ts, generateRandomDistinctCharacters wRand 2 2 = some out ∧
      out = .ok ts ∧ (ts.length : Int) = 2 ∧
      (ts.map (fun t => (t.archetype, t.suit))).Nodup := by
  match hrun : generateRandomDistinctCharacters wRand 2 2 with
  | some out =>
    obtain ⟨ts, ha, hb, hc⟩ :=
      gen_count_in_range 2 wRand 2 (by decide) (by decide) out hrun
    exact ⟨out, ts, rfl, ha, hb, hc⟩
  | none => exact absurd hrun (by decide)

/-- C9 counterexample: termination of the rejection-sampling loop is not
hard-bounded over all random sources.  With the stream that always draws
(hearts, king) and count 2, no amount of fuel makes
`generateRandomDistinctCharacters` return: the loop spins forever on
duplicate draws. -/
theorem gen_termination_cex :
    ¬ ∃ (fuel : Nat) (out : RResult (List CharacterTemplate) AppError),
        generateRandomDistinctCharacters constRand 2 fuel = some out := by
  rintro ⟨fuel, out, hrun⟩
  unfold generateRandomDistinctCharacters at hrun
  rw [if_neg (by decide)] at hrun
  suffices h : ∀ (fuel iter : Nat) (acc : List (String × CharacterTemplate)),
      acc.length ≤ 1 → (∀ p ∈ acc, p.1 = "king-hearts") →
      genLoop constRand 2 fuel iter acc = none by
    rw [h fuel 0 [] (by simp) (by simp)] at hrun
    exact absurd hrun (by simp)
  intro fuel
  have hdraw : ∀ iter : Nat, drawnTemplate constRand iter
      = generateCharacter (0, 1) (0, 1) (0, 1) := fun _ => rfl
  have hkh : pairKey (generateCharacter (0, 1) (0, 1) (0, 1)).archetype
      (generateCharacter (0, 1) (0, 1) (0, 1)).suit = "king-hearts" := by decide
  induction fuel with
  | zero =>
    intro iter acc hlen hkeys
    unfold genLoop
    rw [if_pos (by omega)]
  | succ fuel ih =>
    intro iter acc hlen hkeys
    unfold genLoop
    rw [if_pos (by omega)]
    simp only [hdraw, hkh]
    by_cases hmem : acc.any (fun p => p.1 = "king-hearts")
    · rw [if_pos hmem]
      exact ih (iter + 1) acc hlen hkeys
    · rw [if_neg hmem]
      have hacc : acc = [] := by
        cases acc with
        | nil => rfl
        | cons p rest =>
          exact absurd
            (List.any_eq_true.mpr ⟨p, by simp, by simpa using hkeys p (by simp)⟩)
            hmem
      subst hacc
      exact ih (iter + 1) _ (by simp) (by simp)

/-- C9 (amended): the loop's termination bound is per-stream, not absolute:
for any count at most 9, the call returns within `N` iterations of fuel
whenever the stream's first `N` draws contain at least `count` distinct
(archetype, suit) pairs (for a source that never accumulates `count`
distinct pairs, the loop never exits — see the counterexample). -/
theorem gen_terminates_of_enough_draws (count : Int) (rand : RandStream)
    (N : Nat) (h9 : count ≤ 9)
    (hN : count ≤ ((((List.range N).map (drawnKey rand)).toFinset.card : Nat) : Int)) :
    ∃ out, generateRandomDistinctCharacters rand count N = some out := by
  suffices h : ∀ (fuel iter : Nat) (acc : List (String × CharacterTemplate)),
      (acc.map Prod.fst).Nodup →
      count ≤ (((acc.map Prod.fst).toFinset ∪
        ((List.range' iter fuel).map (drawnKey rand)).toFinset).card : Int) →
      ∃ res, genLoop rand count fuel iter acc = some res by
    unfold generateRandomDistinctCharacters
    rw [if_neg (by
      have : maxDistinct = 9 := by decide
      omega)]
    obtain ⟨res, hres⟩ := h N 0 [] (by exact List.nodup_nil) (by
      rw [← List.range_eq_range']
      simpa using hN)
    rw [hres]
    exact ⟨.ok (res.map Prod.snd), rfl⟩
  intro fuel
  induction fuel with
  | zero =>
    intro iter acc hnd hcard
    unfold genLoop
    rw [if_neg (by
      rw [show List.range' iter 0 = [] from rfl] at hcard
      simp only [List.map_nil, List.toFinset_nil, Finset.union_empty] at hcard
      rw [List.toFinset_card_of_nodup hnd, List.length_map] at hcard
      omega)]
    exact ⟨acc, rfl⟩
  | succ fuel ih =>
    intro iter acc hnd hcard
    unfold genLoop
    by_cases hlt : (acc.length : Int) < count
    · rw [if_pos hlt]
      simp only []
      rw [List.range'_succ iter fuel 1] at hcard
      by_cases hmem : acc.any (fun p =>
          p.1 = pairKey (drawnTemplate rand iter).archetype
            (drawnTemplate rand iter).suit)
      · rw [if_pos hmem]
        refine ih (iter + 1) acc hnd ?_
        obtain ⟨p, hp, hpk⟩ := List.any_eq_true.mp hmem
        have hk : drawnKey rand iter ∈ (acc.map Prod.fst).toFinset := by
          rw [List.mem_toFinset]
          exact List.mem_map.mpr ⟨p, hp, by
            rw [of_decide_eq_true hpk]
            rfl⟩
        calc count
            ≤ (((acc.map Prod.fst).toFinset ∪
                ((iter :: List.range' (iter + 1) fuel).map
                  (drawnKey rand)).toFinset).card : Int) := hcard
          _ = (((acc.map Prod.fst).toFinset ∪
                ((List.range' (iter + 1) fuel).map
                  (drawnKey rand)).toFinset).card : Int) := by
              rw [List.map_cons, List.toFinset_cons, Finset.union_insert,
                Finset.insert_eq_self.mpr (Finset.mem_union_left _ hk)]
      · rw [if_neg hmem]
        refine ih (iter + 1) _ ?_ ?_
        · rw [List.map_append, List.nodup_append]
          refine ⟨hnd, by simp, ?_⟩
          intro k hk hk'
          simp only [List.map_cons, List.map_nil, List.mem_singleton] at hk'
          subst hk'
          obtain ⟨p, hp, hpk⟩ := List.mem_map.mp hk
          exact hmem (List.any_eq_true.mpr ⟨p, hp, by simpa using hpk⟩)
        · rw [List.map_append]
          rw [List.toFinset_append]
          calc count
              ≤ (((acc.map Prod.fst).toFinset ∪
                  ((iter :: List.range' (iter + 1) fuel).map
                    (drawnKey rand)).toFinset).card : Int) := hcard
            _ = ((((acc.map Prod.fst).toFinset ∪
                  ([(pairKey (drawnTemplate rand iter).archetype
                    (drawnTemplate rand iter).suit,
                    drawnTemplate rand iter)].map Prod.fst).toFinset) ∪
                  ((List.range' (iter + 1) fuel).map
                    (drawnKey rand)).toFinset).card : Int) := by
                rw [List.map_cons, List.toFinset_cons, Finset.union_insert]
                rw [show ([(pairKey (drawnTemplate rand iter).archetype
                  (drawnTemplate rand iter).suit,
                  drawnTemplate rand iter)].map Prod.fst).toFinset
                  = {drawnKey rand iter} from rfl]
                rw [Finset.union_comm _ ({drawnKey rand iter} : Finset String),
                  Finset.union_assoc]
                rfl
    · rw [if_neg hlt]
      exact ⟨acc, rfl⟩

/-- Witness for the amended C9: with the two-distinct-draw stream, count 2
and fuel 2, the call returns. -/
theorem gen_terminates_of_enough_draws_witness :
    ∃ out, generateRandomDistinctCharacters wRand 2 2 = some out :=
  gen_terminates_of_enough_draws 2 wRand 2 (by decide) (by decide)

/-- The concrete `modelRepair` satisfies the value-faithfulness contract:
it only rewrites one input, and that input is not valid JSON. -/
theorem modelRepair_faithful : RepairFaithful modelRepair := by
  intro s v h
  unfold modelRepair
  by_cases hs : s = "not json at all"
  · subst hs
    rw [show jparse ("not json at all") = none from rfl] at h
    exact absurd h (by simp)
  · rw [if_neg hs]
    exact ⟨s, rfl, h⟩

/-- C2: for every repair pass that is value-faithful on valid JSON (the
`jsonrepair` contract), `parseAIJson raw` succeeds with `v` exactly when
normalizing `raw` — fenced-block extraction, colon-`undefined` to `null`,
trim, then strict parse with the repair pass as fallback — yields a non-null
object `v`, and yields an error result otherwise; in particular the fenced
`{"name":"Bob"}` example parses to the `name ↦ Bob` object, and
`"not json at all"` (which the repair pass requotes into a JSON string, as
the `jsonrepair` library does) is rejected. -/
theorem parseAIJson_matches_spec (repair : String → Option String)
    (hrep : RepairFaithful repair) :
    (∀ raw v, parseAIJson repair raw = .ok v ↔
        specParseAIJson repair raw = some v) ∧
      (∀ raw, specParseAIJson repair raw = none →
        ∃ msg, parseAIJson repair raw = .err msg) ∧
      parseAIJson repair ("```json\n\x7b\"name\":\"Bob\"\x7d\n```")
        = .ok (.jobj [("name", .jstr ("Bob"))]) ∧
      (repair ("not json at all") = some ("\"not json at all\"") →
        parseAIJson repair ("not json at all") = .err ("Parsed JSON is falsy")) := by
  have hcase : ∀ raw,
      (∀ v, parseAIJson repair raw = .ok v ↔
        specParseAIJson repair raw = some v) ∧
      (specParseAIJson repair raw = none →
        ∃ msg, parseAIJson repair raw = .err msg) := by
    intro raw
    unfold parseAIJson specParseAIJson
    cases hstrict : jparse (normalizeAIText raw) with
    | some v0 =>
      obtain ⟨s2, hs2, hps2⟩ := hrep _ v0 hstrict
      simp only [hstrict, hs2, hps2]
      by_cases hobj : isObjLike v0
      · simp only [hobj, if_true]
        constructor
        · intro v
          constructor
          · intro h
            injection h with h
            rw [h]
          · intro h
            injection h with h
            rw [h]
        · intro h
          exact absurd h (by simp)
      · simp only [hobj, if_false]
        constructor
        · intro v
          constructor
          · intro h
            exact absurd h (by simp)
          · intro h
            exact absurd h (by simp)
        · intro _
          exact ⟨"Parsed JSON is falsy", rfl⟩
    | none =>
      simp only [hstrict]
      cases hr : repair (normalizeAIText raw) with
      | none =>
        simp only [Option.none_bind]
        constructor
        · intro v
          constructor
          · intro h
            exact absurd h (by simp)
          · intro h
            exact absurd h (by simp)
        · intro _
          exact ⟨"Failed to parse AI JSON response", rfl⟩
      | some s2 =>
        simp only [Option.some_bind]
        cases hp2 : jparse s2 with
        | none =>
          constructor
          · intro v
            constructor
            · intro h
              exact absurd h (by simp)
            · intro h
              exact absurd h (by simp)
          · intro _
            exact ⟨"Failed to parse AI JSON response", rfl⟩
        | some v2 =>
          by_cases hobj : isObjLike v2
          · simp only [hobj, if_true]
            constructor
            · intro v
              constructor
              · intro h
                injection h with h
                rw [h]
              · intro h
                injection h with h
                rw [h]
            · intro h
              exact absurd h (by simp)
          · simp only [hobj, if_false]
            constructor
            · intro v
              constructor
              · intro h
                exact absurd h (by simp)
              · intro h
                exact absurd h (by simp)
            · intro _
              exact ⟨"Parsed JSON is falsy", rfl⟩
  refine ⟨fun raw v => (hcase raw).1 v, fun raw => (hcase raw).2, ?_, ?_⟩
  · have hb : jparse (normalizeAIText ("```json\n\x7b\"name\":\"Bob\"\x7d\n```"))
        = some (.jobj [("name", .jstr ("Bob"))]) := rfl
    obtain ⟨s2, hs2, hps2⟩ := hrep _ _ hb
    unfold parseAIJson
    simp only [hs2, hps2]
    rfl
  · intro hnj
    have hn : normalizeAIText ("not json at all") = "not json at all" := rfl
    unfold parseAIJson
    rw [hn]
    simp only [hnj,
      show jparse ("\"not json at all\"") = some (.jstr ("not json at all")) from rfl]
    rfl

/-- Witness for C2: the concrete `modelRepair` satisfies both hypotheses, and
the two examples evaluate as the claim states. -/
theorem parseAIJson_matches_spec_witness :
    parseAIJson modelRepair ("```json\n\x7b\"name\":\"Bob\"\x7d\n```")
        = .ok (.jobj [("name", .jstr ("Bob"))]) ∧
      parseAIJson modelRepair ("not json at all")
        = .err ("Parsed JSON is falsy") := by
  obtain ⟨_, _, hbob, hnj⟩ := parseAIJson_matches_spec modelRepair modelRepair_faithful
  exact ⟨hbob, hnj (by unfold modelRepair; rw [if_pos rfl])⟩

/-- C6 counterexample: the colon-`undefined` substitution is not quote-aware.
On the strict-valid JSON object `{"note":"x: undefined"}` the substitution
rewrites the quoted string content, so `parseAIJson` returns an object whose
`note` value is `"x: null"` — not the value strict parsing gives. -/
theorem parseAIJson_quoted_undefined_cex :
    jparse ("\x7b\"note\":\"x: undefined\"\x7d")
        = some (.jobj [("note", .jstr ("x: undefined"))]) ∧
      parseAIJson modelRepair ("\x7b\"note\":\"x: undefined\"\x7d")
        = .ok (.jobj [("note", .jstr ("x: null"))]) ∧
      parseAIJson modelRepair ("\x7b\"note\":\"x: undefined\"\x7d")
        ≠ .ok (.jobj [("note", .jstr ("x: undefined"))]) := by
  refine ⟨rfl, rfl, ?_⟩
  intro h
  rw [show parseAIJson modelRepair ("\x7b\"note\":\"x: undefined\"\x7d")
      = .ok (.jobj [("note", .jstr ("x: null"))]) from rfl] at h
  simp only [RResult.ok.injEq, JVal.jobj.injEq, List.cons.injEq, Prod.mk.injEq,
    JVal.jstr.injEq, and_true, true_and] at h
  exact absurd h (by decide)

/-- C6 (amended): the substitution replaces every colon-whitespace-`undefined`
occurrence, inside quoted strings as well as outside; `parseAIJson` returns
exactly the strict-parse value only for inputs the normalizer leaves
untouched — no fenced-block match and no colon-`undefined` occurrence —
whose trimmed text strict-parses to a non-null object. -/
theorem parseAIJson_strict_passthrough (repair : String → Option String)
    (raw : String) (v : JVal)
    (hrep : RepairFaithful repair)
    (hfence : findFence raw.data = none)
    (hundef : replaceUndefNull raw.data = raw.data)
    (hparse : jparse ⟨jsTrim raw.data⟩ = some v)
    (hobj : isObjLike v = true) :
    parseAIJson repair raw = .ok v := by
  have hnorm : normalizeAIText raw = ⟨jsTrim raw.data⟩ := by
    unfold normalizeAIText
    simp only [hfence, hundef]
  have hparse2 : jparse (normalizeAIText raw) = some v := by
    rw [hnorm]
    exact hparse
  obtain ⟨s2, hs2, hps2⟩ := hrep _ v hparse2
  unfold parseAIJson
  simp only [hs2, hps2, hobj, if_true]

/-- Witness for the amended C6 on a plain strict-valid object. -/
theorem parseAIJson_strict_passthrough_witness :
    parseAIJson modelRepair ("\x7b\"name\":\"Alice\"\x7d")
        = .ok (.jobj [("name", .jstr ("Alice"))]) :=
  parseAIJson_strict_passthrough modelRepair ("\x7b\"name\":\"Alice\"\x7d")
    (.jobj [("name", .jstr ("Alice"))]) modelRepair_faithful rfl rfl rfl rfl

/-- Any fuel at least the input length gives the replacement scan the same
result: the `l.length` budget `replaceUndefNull` passes is canonical (every
scan step consumes at least one input character). -/
theorem replaceUndefSteps_fuel_irrelevant :
    ∀ (fuel1 fuel2 : Nat) (l : List Char), l.length ≤ fuel1 → l.length ≤ fuel2 →
      replaceUndefSteps fuel1 l = replaceUndefSteps fuel2 l := by
  intro fuel1
  induction fuel1 with
  | zero =>
    intro fuel2 l h1 h2
    obtain rfl : l = [] := List.eq_nil_of_length_eq_zero (by omega)
    cases fuel2 <;> rfl
  | succ fuel1 ih =>
    intro fuel2 l h1 h2
    cases l with
    | nil => cases fuel2 <;> rfl
    | cons c rest =>
      cases fuel2 with
      | zero => simp at h2
      | succ fuel2 =>
        simp only [List.length_cons] at h1 h2
        have hws : (rest.dropWhile isJsWsChar).length ≤ rest.length :=
          (List.dropWhile_sublist isJsWsChar).length_le
        have hdrop : ((rest.dropWhile isJsWsChar).drop 9).length ≤
            (rest.dropWhile isJsWsChar).length := by
          simp [List.length_drop]
        unfold replaceUndefSteps
        by_cases hc : c = ':'
        · rw [if_pos hc, if_pos hc]
          simp only []
          by_cases hu : undefinedToken.isPrefixOf (rest.dropWhile isJsWsChar) &&
              wordBoundaryAfter ((rest.dropWhile isJsWsChar).drop 9)
          · rw [if_pos hu, if_pos hu]
            rw [ih fuel2 _ (by omega) (by omega)]
          · rw [if_neg hu, if_neg hu]
            rw [ih fuel2 rest (by omega) (by omega)]
        · rw [if_neg hc, if_neg hc]
          rw [ih fuel2 rest (by omega) (by omega)]

/-- C5: against the spec-modelled `gameMasterScriptSchema`, a script response
whose `weakPoints` array has any length other than exactly ten fails schema
validation — both at the schema itself and through
`parseAndValidateAIResponse`, which reports the invalid-response error — and
a response with exactly ten well-formed entries is not rejected on that
account. -/
theorem script_weakPoints_exactly_ten :
    (∀ (v : JVal) (ws : List JVal), weakPointsOf v = some ws →
      ws.length ≠ 10 → gameMasterScriptCheck v = false) ∧
      (∀ (repair : String → Option String) (raw : String) (v : JVal)
        (ws : List JVal),
        parseAIJson repair raw = .ok v → weakPointsOf v = some ws →
        ws.length ≠ 10 →
        parseAndValidateAIResponse repair raw gameMasterScriptCheck
          = .err (mkAIResponseError ("AI returned an invalid response"))) ∧
      (∀ ws : List JVal, ws.length = 10 → (∀ w ∈ ws, weakPointCheck w = true) →
        gameMasterScriptCheck (sampleScript ws) = true) := by
  have hrej : ∀ (v : JVal) (ws : List JVal), weakPointsOf v = some ws →
      ws.length ≠ 10 → gameMasterScriptCheck v = false := by
    intro v ws hwp hlen
    cases v with
    | jobj members =>
      simp only [weakPointsOf] at hwp
      simp only [gameMasterScriptCheck]
      cases hg : getMem members ("weakPoints") with
      | none =>
        rw [hg] at hwp
        exact absurd hwp (by simp)
      | some wv =>
        rw [hg] at hwp
        cases wv with
        | jarr ws2 =>
          simp only [Option.some.injEq] at hwp
          subst hwp
          have hfalse : (ws2.length == 10) = false := by simpa using hlen
          simp [hfalse]
        | jnull => exact absurd hwp (by simp)
        | jbool b => exact absurd hwp (by simp)
        | jnum q => exact absurd hwp (by simp)
        | jstr s => exact absurd hwp (by simp)
        | jobj ms => exact absurd hwp (by simp)
    | jnull => exact absurd hwp (by simp [weakPointsOf])
    | jbool b => exact absurd hwp (by simp [weakPointsOf])
    | jnum q => exact absurd hwp (by simp [weakPointsOf])
    | jstr s => exact absurd hwp (by simp [weakPointsOf])
    | jarr es => exact absurd hwp (by simp [weakPointsOf])
  refine ⟨hrej, ?_, ?_⟩
  · intro repair raw v ws hok hwp hlen
    unfold parseAndValidateAIResponse
    simp only [hok]
    rw [hrej v ws hwp hlen]
    simp
  · intro ws hlen hall
    have hws : ws.all weakPointCheck = true := List.all_eq_true.mpr hall
    have hlen10 : (ws.length == 10) = true := by simp [hlen]
    calc gameMasterScriptCheck (sampleScript ws)
        = ((((ws.length == 10 && ws.all weakPointCheck) && true) && true) && true) := rfl
      _ = true := by rw [hlen10, hws]; rfl

/-- Witness for C5: one entry is rejected (schema and pipeline), ten entries
are accepted. -/
theorem script_weakPoints_exactly_ten_witness :
    gameMasterScriptCheck (sampleScript [sampleWeakPoint]) = false ∧
      parseAndValidateAIResponse modelRepair
        ("\x7b\"hook\":\"h\",\"targets\":\x7b\"king\":\x7b\"name\":\"K\",\"description\":\"d\"\x7d,\"queen\":\x7b\"name\":\"Q\",\"description\":\"d\"\x7d,\"jack\":\x7b\"name\":\"J\",\"description\":\"d\"\x7d\x7d,\"weakPoints\":[\x7b\"name\":\"n\",\"role\":\"r\"\x7d],\"scenes\":[\"s\"],\"centralTension\":\"t\",\"plot\":\"p\"\x7d")
        gameMasterScriptCheck
        = .err (mkAIResponseError ("AI returned an invalid response")) ∧
      gameMasterScriptCheck (sampleScript (List.replicate 10 sampleWeakPoint)) = true := by
  obtain ⟨hrej, hpipe, hacc⟩ := script_weakPoints_exactly_ten
  refine ⟨hrej _ [sampleWeakPoint] rfl (by decide), ?_, ?_⟩
  · exact hpipe modelRepair _ _ [.jobj [("name", .jstr ("n")), ("role", .jstr ("r"))]]
      rfl rfl (by decide)
  · refine hacc _ (by simp) ?_
    intro w hw
    rw [List.eq_of_mem_replicate hw]
    rfl

/-- C7: in the result-style characters endpoint, every request whose player
count exceeds 9 is rejected by request validation with the 422
`Validation failed` error, and the configured provider's `complete` is never
invoked (the handler's call counter is 0) — for every locale table, random
stream, fuel, configuration, registry, repair pass and completion
behaviour. -/
theorem characters_over_max_no_provider_call {π : Type} (locales : List String)
    (req : CharactersRequest) (rand : RandStream) (fuel : Nat)
    (config : AIRuntimeConfig) (reg : Registry π)
    (repair : String → Option String) (complete : Nat → RResult String AppError)
    (h : req.playerCount > 9) :
    charactersHandler locales req rand fuel config reg repair complete
      = some (.fail 422 ("Validation failed"), 0) := by
  have hv : charactersRequestOk locales req = false := by
    unfold charactersRequestOk
    rw [decide_eq_false (by omega : ¬ req.playerCount ≤ 9)]
    simp
  unfold charactersHandler
  rw [hv]
  rfl

/-- A string inequality from a differing prefix of any common length. -/
theorem str_ne_of_take_ne (k : Nat) (s t : String)
    (h : s.data.take k ≠ t.data.take k) : s ≠ t := by
  intro he
  exact h (by rw [he])

/-- `validateAiConfig` and `getAIProvider`, branch by branch (shared by the
provider-lookup property). -/
theorem getAIProvider_branches {π : Type} (config : AIRuntimeConfig)
    (reg : Registry π) :
    (strFalsy config.provider = true →
      getAIProvider config reg = .err (mkAIProviderError msgNoProvider)) ∧
      (∀ p : String, config.provider = some p → p ≠ "" → p ∉ aiProviderNames →
        getAIProvider config reg
          = .err (mkAIProviderError (msgInvalidProvider p))) ∧
      (config.provider = some ("ollama") → strFalsy config.ollamaHost = true →
        getAIProvider config reg = .err (mkAIProviderError msgNoHost)) ∧
      (∀ p : String, config.provider = some p → p ∈ aiProviderNames →
        p ≠ "ollama" → strFalsy config.apiKey = true →
        getAIProvider config reg = .err (mkAIProviderError (msgNoApiKey p))) ∧
      (∀ p : String, config.provider = some p → p ∈ aiProviderNames →
        (p = "ollama" → strFalsy config.ollamaHost = false) →
        (p ≠ "ollama" → strFalsy config.apiKey = false) →
        reg.lookup p = none →
        getAIProvider config reg = .err (mkAIProviderError
          (msgNotRegistered p (availableStr (registryNames reg))))) ∧
      (∀ (p : String) (factory : AIRuntimeConfig → π),
        config.provider = some p → p ∈ aiProviderNames →
        (p = "ollama" → strFalsy config.ollamaHost = false) →
        (p ≠ "ollama" → strFalsy config.apiKey = false) →
        reg.lookup p = some factory →
        getAIProvider config reg = .ok (factory config)) := by
  have hvalid : ∀ p : String, config.provider = some p → p ∈ aiProviderNames →
      (p = "ollama" → strFalsy config.ollamaHost = false) →
      (p ≠ "ollama" → strFalsy config.apiKey = false) →
      validateAiConfig config = .ok config := by
    intro p hp hmem hollama hkey
    have hne : p ≠ "" := by
      intro he
      subst he
      simp [aiProviderNames] at hmem
    unfold validateAiConfig
    rw [hp]
    rw [show strFalsy (some p) = false from by simp [strFalsy, hne]]
    simp only [Bool.false_eq_true, if_false, Option.getD_some]
    rw [show aiProviderNames.contains p = true from List.elem_iff.mpr hmem]
    simp only [Bool.not_true, Bool.false_eq_true, if_false]
    by_cases hpo : p = "ollama"
    · subst hpo
      rw [show strFalsy config.ollamaHost = false from hollama rfl]
      simp
    · rw [show (p == "ollama") = false from by simpa using hpo]
      rw [show strFalsy config.apiKey = false from hkey hpo]
      simp
  refine ⟨?_, ?_, ?_, ?_, ?_, ?_⟩
  · intro h1
    unfold getAIProvider validateAiConfig
    rw [h1]
    rfl
  · intro p hp hne hnm
    unfold getAIProvider validateAiConfig
    rw [hp]
    rw [show strFalsy (some p) = false from by simp [strFalsy, hne]]
    simp only [Bool.false_eq_true, if_false, Option.getD_some]
    rw [show aiProviderNames.contains p = false from by
      rw [Bool.eq_false_iff]
      intro hc
      exact hnm (List.elem_iff.mp hc)]
    rfl
  · intro hp hhost
    unfold getAIProvider validateAiConfig
    rw [hp]
    rw [show strFalsy (some ("ollama")) = false from by simp [strFalsy]]
    simp only [Bool.false_eq_true, if_false, Option.getD_some]
    rw [show aiProviderNames.contains ("ollama") = true from by decide]
    simp only [Bool.not_true, Bool.false_eq_true, if_false]
    rw [show ("ollama" == "ollama") = true from by decide, hhost]
    rfl
  · intro p hp hmem hpo hkey
    have hne : p ≠ "" := by
      intro he
      subst he
      simp [aiProviderNames] at hmem
    unfold getAIProvider validateAiConfig
    rw [hp]
    rw [show strFalsy (some p) = false from by simp [strFalsy, hne]]
    simp only [Bool.false_eq_true, if_false, Option.getD_some]
    rw [show aiProviderNames.contains p = true from List.elem_iff.mpr hmem]
    simp only [Bool.not_true, Bool.false_eq_true, if_false]
    rw [show (p == "ollama") = false from by simpa using hpo]
    simp only [Bool.false_and, Bool.false_eq_true, if_false]
    rw [hkey]
    rw [show (p != "ollama") = true from by simp [hpo]]
    rfl
  · intro p hp hmem hollama hkey hlook
    unfold getAIProvider
    rw [hvalid p hp hmem hollama hkey]
    simp only [hp, Option.getD_some, hlook]
  · intro p factory hp hmem hollama hkey hlook
    unfold getAIProvider
    rw [hvalid p hp hmem hollama hkey]
    simp only [hp, Option.getD_some, hlook]

/-- The unconfigured-provider message differs from the invalid-name message
(for every interpolated name). -/
theorem msgNoProvider_ne_invalid (r : String) :
    msgNoProvider ≠ msgInvalidProvider r := by
  apply str_ne_of_take_ne 1
  simp only [msgNoProvider, msgInvalidProvider, String.data_append,
    List.append_assoc]
  rw [List.take_append_of_le_length (by decide)]
  decide

/-- The unconfigured-provider message differs from the missing-host message. -/
theorem msgNoProvider_ne_noHost : msgNoProvider ≠ msgNoHost := by decide

/-- The unconfigured-provider message differs from every emitted missing-key
message. -/
theorem msgNoProvider_ne_noApiKey (q : String) (hq : q ∈ aiProviderNames) :
    msgNoProvider ≠ msgNoApiKey q := by
  simp only [aiProviderNames, List.mem_cons, List.not_mem_nil, or_false] at hq
  rcases hq with rfl | rfl | rfl <;> decide

/-- The unconfigured-provider message differs from every emitted
not-registered message. -/
theorem msgNoProvider_ne_notRegistered (p avail : String)
    (hp : p ∈ aiProviderNames) : msgNoProvider ≠ msgNotRegistered p avail := by
  simp only [aiProviderNames, List.mem_cons, List.not_mem_nil, or_false] at hp
  apply str_ne_of_take_ne 13
  rcases hp with rfl | rfl | rfl
  · rw [show msgNotRegistered ("anthropic") avail
        = ("AI provider \"anthropic\" is not registered. Available providers: "
          ++ avail) ++ ". Ensure the provider module is imported." from rfl]
    simp only [String.data_append, List.append_assoc]
    rw [List.take_append_of_le_length (by decide)]
    decide
  · rw [show msgNotRegistered ("ollama") avail
        = ("AI provider \"ollama\" is not registered. Available providers: "
          ++ avail) ++ ". Ensure the provider module is imported." from rfl]
    simp only [String.data_append, List.append_assoc]
    rw [List.take_append_of_le_length (by decide)]
    decide
  · rw [show msgNotRegistered ("openai") avail
        = ("AI provider \"openai\" is not registered. Available providers: "
          ++ avail) ++ ". Ensure the provider module is imported." from rfl]
    simp only [String.data_append, List.append_assoc]
    rw [List.take_append_of_le_length (by decide)]
    decide

/-- The invalid-name message differs from the missing-host message. -/
theorem msgInvalid_ne_noHost (r : String) :
    msgInvalidProvider r ≠ msgNoHost := by
  apply str_ne_of_take_ne 1
  simp only [msgInvalidProvider, msgNoHost, String.data_append,
    List.append_assoc]
  rw [List.take_append_of_le_length (by decide)]
  decide

/-- The invalid-name message differs from the missing-key message, whatever
the two interpolated names. -/
theorem msgInvalid_ne_noApiKey (r q : String) :
    msgInvalidProvider r ≠ msgNoApiKey q := by
  apply str_ne_of_take_ne 1
  simp only [msgInvalidProvider, msgNoApiKey, String.data_append,
    List.append_assoc]
  rw [List.take_append_of_le_length (by decide),
    List.take_append_of_le_length (by decide)]
  decide

/-- The invalid-name message differs from the not-registered message,
whatever the interpolated names and registry listing. -/
theorem msgInvalid_ne_notRegistered (r p avail : String) :
    msgInvalidProvider r ≠ msgNotRegistered p avail := by
  apply str_ne_of_take_ne 1
  simp only [msgInvalidProvider, msgNotRegistered, String.data_append,
    List.append_assoc]
  rw [List.take_append_of_le_length (by decide),
    List.take_append_of_le_length (by decide)]
  decide

/-- The missing-host message differs from every emitted missing-key
message. -/
theorem msgNoHost_ne_noApiKey (q : String) (hq : q ∈ aiProviderNames) :
    msgNoHost ≠ msgNoApiKey q := by
  simp only [aiProviderNames, List.mem_cons, List.not_mem_nil, or_false] at hq
  rcases hq with rfl | rfl | rfl <;> decide

/-- The missing-host message differs from every emitted not-registered
message. -/
theorem msgNoHost_ne_notRegistered (p avail : String)
    (hp : p ∈ aiProviderNames) : msgNoHost ≠ msgNotRegistered p avail := by
  simp only [aiProviderNames, List.mem_cons, List.not_mem_nil, or_false] at hp
  apply str_ne_of_take_ne 25
  rcases hp with rfl | rfl | rfl
  · rw [show msgNotRegistered ("anthropic") avail
        = ("AI provider \"anthropic\" is not registered. Available providers: "
          ++ avail) ++ ". Ensure the provider module is imported." from rfl]
    simp only [String.data_append, List.append_assoc]
    rw [List.take_append_of_le_length (by decide)]
    decide
  · rw [show msgNotRegistered ("ollama") avail
        = ("AI provider \"ollama\" is not registered. Available providers: "
          ++ avail) ++ ". Ensure the provider module is imported." from rfl]
    simp only [String.data_append, List.append_assoc]
    rw [List.take_append_of_le_length (by decide)]
    decide
  · rw [show msgNotRegistered ("openai") avail
        = ("AI provider \"openai\" is not registered. Available providers: "
          ++ avail) ++ ". Ensure the provider module is imported." from rfl]
    simp only [String.data_append, List.append_assoc]
    rw [List.take_append_of_le_length (by decide)]
    decide

/-- The missing-key message differs from the not-registered message, for
every pair of emitted provider names. -/
theorem msgNoApiKey_ne_notRegistered (q p avail : String)
    (hq : q ∈ aiProviderNames) (hp : p ∈ aiProviderNames) :
    msgNoApiKey q ≠ msgNotRegistered p avail := by
  simp only [aiProviderNames, List.mem_cons, List.not_mem_nil, or_false] at hp hq
  apply str_ne_of_take_ne 28
  rcases hp with rfl | rfl | rfl <;> rcases hq with rfl | rfl | rfl
  all_goals
    first
    | (rw [show msgNotRegistered ("anthropic") avail
          = ("AI provider \"anthropic\" is not registered. Available providers: "
            ++ avail) ++ ". Ensure the provider module is imported." from rfl]
       simp only [String.data_append, List.append_assoc]
       rw [List.take_append_of_le_length (by decide)]
       decide)
    | (rw [show msgNotRegistered ("ollama") avail
          = ("AI provider \"ollama\" is not registered. Available providers: "
            ++ avail) ++ ". Ensure the provider module is imported." from rfl]
       simp only [String.data_append, List.append_assoc]
       rw [List.take_append_of_le_length (by decide)]
       decide)
    | (rw [show msgNotRegistered ("openai") avail
          = ("AI provider \"openai\" is not registered. Available providers: "
            ++ avail) ++ ". Ensure the provider module is imported." from rfl]
       simp only [String.data_append, List.append_assoc]
       rw [List.take_append_of_le_length (by decide)]
       decide)

/-- C8: `getAIProvider` returns a provider-class error (`AIProviderError`,
status 502) in exactly five cases — provider name absent (falsy), name not
among the known set, ollama with no host, a non-ollama provider with no API
key, and (distinctly from configuration validation) a valid name with no
registered factory — and otherwise succeeds with the provider built by the
registered factory; the five error messages are pairwise distinct for every
emitted combination of names and registry listing, so each case carries its
own reportable condition. -/
theorem getAIProvider_error_taxonomy {π : Type} (config : AIRuntimeConfig)
    (reg : Registry π) :
    ((strFalsy config.provider = true →
      getAIProvider config reg = .err (mkAIProviderError msgNoProvider)) ∧
      (∀ p : String, config.provider = some p → p ≠ "" → p ∉ aiProviderNames →
        getAIProvider config reg
          = .err (mkAIProviderError (msgInvalidProvider p))) ∧
      (config.provider = some ("ollama") → strFalsy config.ollamaHost = true →
        getAIProvider config reg = .err (mkAIProviderError msgNoHost)) ∧
      (∀ p : String, config.provider = some p → p ∈ aiProviderNames →
        p ≠ "ollama" → strFalsy config.apiKey = true →
        getAIProvider config reg = .err (mkAIProviderError (msgNoApiKey p))) ∧
      (∀ p : String, config.provider = some p → p ∈ aiProviderNames →
        (p = "ollama" → strFalsy config.ollamaHost = false) →
        (p ≠ "ollama" → strFalsy config.apiKey = false) →
        reg.lookup p = none →
        getAIProvider config reg = .err (mkAIProviderError
          (msgNotRegistered p (availableStr (registryNames reg))))) ∧
      (∀ (p : String) (factory : AIRuntimeConfig → π),
        config.provider = some p → p ∈ aiProviderNames →
        (p = "ollama" → strFalsy config.ollamaHost = false) →
        (p ≠ "ollama" → strFalsy config.apiKey = false) →
        reg.lookup p = some factory →
        getAIProvider config reg = .ok (factory config))) ∧
      ((mkAIProviderError msgNoProvider).name = "AIProviderError" ∧
        (mkAIProviderError msgNoProvider).statusCode = 502) ∧
      (∀ p q r avail : String, p ∈ aiProviderNames → q ∈ aiProviderNames →
        r ∉ aiProviderNames →
        msgNoProvider ≠ msgInvalidProvider r ∧
          msgNoProvider ≠ msgNoHost ∧
          msgNoProvider ≠ msgNoApiKey q ∧
          msgNoProvider ≠ msgNotRegistered p avail ∧
          msgInvalidProvider r ≠ msgNoHost ∧
          msgInvalidProvider r ≠ msgNoApiKey q ∧
          msgInvalidProvider r ≠ msgNotRegistered p avail ∧
          msgNoHost ≠ msgNoApiKey q ∧
          msgNoHost ≠ msgNotRegistered p avail ∧
          msgNoApiKey q ≠ msgNotRegistered p avail) :=
  ⟨getAIProvider_branches config reg, ⟨rfl, rfl⟩,
    fun p q r avail hp hq hr =>
      ⟨msgNoProvider_ne_invalid r, msgNoProvider_ne_noHost,
        msgNoProvider_ne_noApiKey q hq, msgNoProvider_ne_notRegistered p avail hp,
        msgInvalid_ne_noHost r, msgInvalid_ne_noApiKey r q,
        msgInvalid_ne_notRegistered r p avail, msgNoHost_ne_noApiKey q hq,
        msgNoHost_ne_notRegistered p avail hp,
        msgNoApiKey_ne_notRegistered q p avail hq hp⟩⟩

/-- Witness for C8: each of the five failure branches and the success branch
exercised at a concrete configuration (over the unit provider type, with a
one-entry registry for the lookup cases). -/
theorem getAIProvider_error_taxonomy_witness :
    getAIProvider ⟨none, none, none, none⟩ ([] : Registry Unit)
        = .err (mkAIProviderError msgNoProvider) ∧
      getAIProvider ⟨some ("gpt"), some ("key"), none, none⟩ ([] : Registry Unit)
        = .err (mkAIProviderError (msgInvalidProvider ("gpt"))) ∧
      getAIProvider ⟨some ("ollama"), none, none, none⟩ ([] : Registry Unit)
        = .err (mkAIProviderError msgNoHost) ∧
      getAIProvider ⟨some ("anthropic"), none, none, none⟩ ([] : Registry Unit)
        = .err (mkAIProviderError (msgNoApiKey ("anthropic"))) ∧
      getAIProvider ⟨some ("anthropic"), some ("key"), none, none⟩
          ([] : Registry Unit)
        = .err (mkAIProviderError (msgNotRegistered ("anthropic")
            (availableStr (registryNames ([] : Registry Unit))))) ∧
      getAIProvider ⟨some ("anthropic"), some ("key"), none, none⟩
          ([("anthropic", fun _ => Unit.unit)] : Registry Unit)
        = .ok Unit.unit ∧
      msgNoApiKey ("anthropic") ≠ msgNotRegistered ("anthropic") "(none)" := by
  obtain ⟨⟨h1, h2, h3, h4, h5, _⟩, _, _⟩ :=
    getAIProvider_error_taxonomy (π := Unit) ⟨none, none, none, none⟩
      ([] : Registry Unit)
  obtain ⟨⟨_, i2, _, _, _, _⟩, _, _⟩ :=
    getAIProvider_error_taxonomy (π := Unit) ⟨some ("gpt"), some ("key"), none, none⟩
      ([] : Registry Unit)
  obtain ⟨⟨_, _, j3, _, _, _⟩, _, _⟩ :=
    getAIProvider_error_taxonomy (π := Unit) ⟨some ("ollama"), none, none, none⟩
      ([] : Registry Unit)
  obtain ⟨⟨_, _, _, k4, _, _⟩, _, _⟩ :=
    getAIProvider_error_taxonomy (π := Unit) ⟨some ("anthropic"), none, none, none⟩
      ([] : Registry Unit)
  obtain ⟨⟨_, _, _, _, l5, _⟩, _, _⟩ :=
    getAIProvider_error_taxonomy (π := Unit)
      ⟨some ("anthropic"), some ("key"), none, none⟩ ([] : Registry Unit)
  obtain ⟨⟨_, _, _, _, _, m6⟩, _, mdist⟩ :=
    getAIProvider_error_taxonomy (π := Unit)
      ⟨some ("anthropic"), some ("key"), none, none⟩
      ([("anthropic", fun _ => Unit.unit)] : Registry Unit)
  refine ⟨h1 rfl, i2 ("gpt") rfl (by decide) (by decide), j3 rfl rfl,
    k4 ("anthropic") rfl (by decide) (by decide) rfl,
    l5 ("anthropic") rfl (by decide) (by simp) (fun _ => rfl) rfl,
    m6 ("anthropic") (fun _ => Unit.unit) rfl (by decide) (by simp)
      (fun _ => rfl) rfl, ?_⟩
  exact (mdist ("anthropic") "anthropic" "gpt" "(none)" (by decide) (by decide)
    (by decide)).2.2.2.2.2.2.2.2.2

/-- Witness for C7 at player count 10 with an otherwise well-formed
request. -/
theorem characters_over_max_no_provider_call_witness :
    charactersHandler ["en"] ⟨10, ["cyberpunk"], "en"⟩ wRand 0
      ⟨some ("anthropic"), some ("key"), none, none⟩ ([] : Registry Unit)
      modelRepair (fun _ => .err (mkAIProviderError ("network error")))
      = some (.fail 422 ("Validation failed"), 0) :=
  characters_over_max_no_provider_call ["en"] ⟨10, ["cyberpunk"], "en"⟩ wRand 0
    ⟨some ("anthropic"), some ("key"), none, none⟩ ([] : Registry Unit)
    modelRepair (fun _ => .err (mkAIProviderError ("network error"))) (by decide)

end CampaignDealer
